import Mathlib

/-!
Verification development for src/cloudflare-setup.py.

The script is a sequential command-line tool: a fixed table of five firewall
rules and five zone settings, one HTTP request helper, four operations
(list, delete-all, add-rules, configure-settings) and a flag dispatcher.

The embedding below translates the script directly:
- HTTP traffic is mediated by an abstract handler of type
  `Handler σ := σ → Request → σ × CallOutcome`: given the current state of
  the outside world and the request being issued, it returns the new world
  state and the outcome of the call (a decoded JSON response, a transport
  failure, or a keyboard interrupt delivered while the call blocks).
  Instantiating σ with Nat and a response sequence gives an arbitrary
  response oracle; instantiating it with a ruleset state gives the
  provider model of the specification.
- JSON responses are modelled by the record shapes the script actually
  reads: a `success` field that is a boolean or absent, an `errors` list,
  and an optional `result` object with optional `id` and `rules` fields.
  Python truthiness of these fields is translated explicitly (absent or
  false success is falsy, an absent or empty rules list is falsy, an
  absent or empty ruleset id is falsy).
- Python exceptions become the `Exc` type threaded as `Option Exc` in the
  result of every operation (some e = the exception e is propagating).
  `except Exception` handlers catch every `Exc` except
  `Exc.keyboardInterrupt`; the one bare except in the script catches
  everything; `sys.exit` is the distinct `MainOutcome.exit` outcome,
  matching SystemExit not being an Exception subclass.
- `print` appends its argument to an output transcript; `input` consumes
  one stdin event, which is a line of text, or a keyboard interrupt, or
  end of file (empty stdin, raising EOFError as Python does).
- The request URL is API_BASE ++ endpoint with API_BASE constant; the
  recorded `Request` keeps the varying endpoint path, the method, the
  optional JSON body, and the bearer token placed in the headers.
-/

namespace CloudflareSetup

/-- HTTP methods dispatched by the request helper. -/
inductive Method
  | GET
  | POST
  | PUT
  | PATCH
  | DELETE
  deriving DecidableEq

/-- One firewall rule record from the SECURITY_RULES table: fields action,
description, expression, enabled, and the optional action_parameters
mapping used only by the skip rule. -/
structure Rule where
  action : String
  description : String
  expression : String
  enabled : Bool
  action_parameters : Option (List (String × String))
  deriving DecidableEq

/-- The five-entry SECURITY_RULES table, transcribed from the script. -/
def SECURITY_RULES : List Rule := [
  { action := "block",
    description := "Block AI bots, scrapers, and malicious user agents to protect LGBTQ+ user privacy",
    expression := "(cf.bot_management.score lt 30) or (http.user_agent contains \"GPTBot\") or (http.user_agent contains \"ChatGPT\") or (http.user_agent contains \"Claude-Web\") or (http.user_agent contains \"anthropic-ai\") or (http.user_agent contains \"Google-Extended\") or (http.user_agent contains \"CCBot\") or (http.user_agent contains \"FacebookBot\") or (http.user_agent contains \"Bytespider\") or (http.user_agent contains \"Applebot-Extended\") or (http.user_agent contains \"PerplexityBot\") or (http.user_agent contains \"Diffbot\") or (http.user_agent contains \"Scrapy\") or (http.user_agent contains \"python-requests\") or (http.user_agent contains \"curl\") or (http.user_agent contains \"wget\") or (http.user_agent contains \"sqlmap\") or (http.user_agent contains \"nikto\") or (http.user_agent contains \"nmap\") or (http.user_agent eq \"\")",
    enabled := true,
    action_parameters := none },
  { action := "managed_challenge",
    description := "Protect admin panel, auth endpoints, and challenge high threat traffic",
    expression := "((http.request.uri.path contains \"/api/admin\") and (cf.threat_score gt 10)) or ((http.request.uri.path contains \"/api/auth/login\" or http.request.uri.path contains \"/api/auth/signup\" or http.request.uri.path contains \"/api/auth/reset-password\") and (cf.threat_score gt 5)) or (cf.threat_score gt 20)",
    enabled := true,
    action_parameters := none },
  { action := "block",
    description := "Block SQL injection, XSS attacks, and malicious file upload attempts",
    expression := "(http.request.uri.query contains \"UNION SELECT\") or (http.request.uri.query contains \"DROP TABLE\") or (http.request.uri.query contains \"<script>\") or (http.request.uri.query contains \"javascript:\") or (http.request.uri.query contains \"onerror=\") or (http.request.uri.query contains \"onload=\") or ((http.request.uri.path contains \"/api/upload\") and (http.request.body contains \".php\" or http.request.body contains \".exe\" or http.request.body contains \".sh\" or http.request.body contains \".bat\"))",
    enabled := true,
    action_parameters := none },
  { action := "block",
    description := "Block signups from high-risk countries while allowing read access for LGBTQ+ users",
    expression := "(ip.geoip.country in \x7b\"IR\" \"AF\" \"PK\" \"IQ\" \"UG\" \"SA\" \"RU\" \"CN\" \"KP\"\x7d) and (http.request.uri.path contains \"/api/auth/signup\")",
    enabled := true,
    action_parameters := none },
  { action := "skip",
    description := "Whitelist your development IP and trusted services (UPDATE WITH YOUR IP)",
    expression := "(ip.src in \x7b1.2.3.4\x7d) or (http.user_agent contains \"UptimeRobot\")",
    enabled := false,
    action_parameters := some [("ruleset", "current")] }
]

/-- The settings table of configure_security_settings: name, value,
confirmation message. -/
def settingsTable : List (String × String × String) := [
  ("security_level", "medium", "Security level set to Medium"),
  ("browser_check", "on", "Browser Integrity Check enabled"),
  ("always_use_https", "on", "Always Use HTTPS enabled"),
  ("min_tls_version", "1.2", "Minimum TLS version set to 1.2"),
  ("tls_1_3", "on", "TLS 1.3 enabled")
]

/-- JSON request bodies the script sends: a rules replacement list, a
single rule, or a settings value. -/
inductive Body
  | rules (rs : List Rule)
  | rule (r : Rule)
  | value (v : String)
  deriving DecidableEq

/-- One HTTP request as issued by make_request: the endpoint path appended
to API_BASE, the method, the optional JSON body, and the bearer token of
the Authorization header. -/
structure Request where
  endpoint : String
  method : Method
  body : Option Body
  bearer : String
  deriving DecidableEq

/-- The result object of the ruleset entrypoint response, with the two
fields the script reads; either may be absent. -/
structure RulesetResult where
  id : Option String
  rules : Option (List Rule)
  deriving DecidableEq

/-- A decoded JSON response: the success field (boolean or absent), the
errors list, the optional result object. -/
structure ApiResponse where
  success : Option Bool
  errors : List String
  result : Option RulesetResult
  deriving DecidableEq

/-- Outcome of one blocking HTTP call: a decoded response, a transport
layer failure carrying its message, or a keyboard interrupt delivered
while the call blocks. -/
inductive CallOutcome
  | response (r : ApiResponse)
  | transportError (msg : String)
  | interrupt
  deriving DecidableEq

/-- Exceptions of the script: the API error raised by make_request, a
transport failure from the requests library, EOFError from input at a
closed stdin, and KeyboardInterrupt. -/
inductive Exc
  | apiError (errors : List String)
  | transportError (msg : String)
  | eofError
  | keyboardInterrupt
  deriving DecidableEq

/-- Whether an except Exception handler catches this: KeyboardInterrupt
is not an Exception subclass in Python, everything else here is. -/
def Exc.isException : Exc → Bool
  | .keyboardInterrupt => false
  | _ => true

/-- The message text of an exception as interpolated by the scripts
f-strings (the list rendering of the error payload is abstracted as a
bracketed comma-separated rendering). -/
def Exc.msg : Exc → String
  | .apiError errors => "Cloudflare API Error: [" ++ String.intercalate ", " errors ++ "]"
  | .transportError m => m
  | .eofError => "EOF when reading a line"
  | .keyboardInterrupt => ""

/-- One stdin event consumed by input: a line of text or a keyboard
interrupt arriving while input blocks. -/
inductive StdinEvent
  | line (s : String)
  | interrupt
  deriving DecidableEq

/-- The outside world as seen through HTTP: given its state and the
request being issued, the new state and the outcome of the call. -/
def Handler (σ : Type) : Type := σ → Request → σ × CallOutcome

/-- Program state threaded through the run: the world state, the trace of
issued requests, the printed transcript, the remaining stdin events. -/
structure St (σ : Type) where
  prov : σ
  calls : List Request
  output : List String
  stdin : List StdinEvent

variable {σ : Type}

/-- Initial state: no calls made, nothing printed. -/
def initSt (p : σ) (stdin : List StdinEvent) : St σ :=
  { prov := p, calls := [], output := [], stdin := stdin }

/-- print: append one line to the transcript. -/
def echo (s : St σ) (l : String) : St σ :=
  { s with output := s.output ++ [l] }

/-- input(): consume one stdin event; empty stdin raises EOFError, an
interrupt event raises KeyboardInterrupt. -/
def inputLine (s : St σ) : St σ × Except Exc String :=
  match s.stdin with
  | [] => (s, .error .eofError)
  | .line c :: rest => ({ s with stdin := rest }, .ok c)
  | .interrupt :: rest => ({ s with stdin := rest }, .error .keyboardInterrupt)

/-- Python str.lower() restricted to its per-character behaviour: every
character is lowercased with the character lowercase map (the inputs the
script compares are plain ASCII words). -/
def pyLower (s : String) : String := String.mk (s.data.map Char.toLower)

/-- The Python slice s[:n]: the first n characters of the string. -/
def pySlice (s : String) (n : Nat) : String := String.mk (s.data.take n)

/-- The static configuration constants of the script. The operator is
expected to replace the placeholder values; both are modelled as the
fields of an explicit record so that runs of the edited script can be
stated. -/
structure Config where
  CLOUDFLARE_API_TOKEN : String
  ZONE_ID : String

/-- The pre-flight placeholder check of main. -/
def Config.isPlaceholder (cfg : Config) : Bool :=
  cfg.CLOUDFLARE_API_TOKEN == "YOUR_API_TOKEN_HERE" || cfg.ZONE_ID == "YOUR_ZONE_ID_HERE"

/-- Constant URL root of the provider API. -/
def API_BASE : String := "https://api.cloudflare.com/client/v4"

/-- The ruleset phase entrypoint path for the zone. -/
def entrypointPath (zone : String) : String :=
  "/zones/" ++ zone ++ "/rulesets/phases/http_request_firewall_custom/entrypoint"

/-- The append-one-rule path for a resolved ruleset id. -/
def rulesPath (zone rulesetId : String) : String :=
  "/zones/" ++ zone ++ "/rulesets/" ++ rulesetId ++ "/rules"

/-- The zone settings path for one setting name. -/
def settingPath (zone setting : String) : String :=
  "/zones/" ++ zone ++ "/settings/" ++ setting

/-- The request record assembled by make_request: the endpoint path, the
method, the optional body, and the bearer token of the headers. -/
def mkReq (cfg : Config) (endpoint : String) (method : Method)
    (data : Option Body) : Request :=
  { endpoint := endpoint, method := method, body := data,
    bearer := cfg.CLOUDFLARE_API_TOKEN }

/-- make_request: issue one HTTP call with the bearer header, decode the
response, return it if its success field is true, raise the API error
carrying the errors list if success is false or absent; transport
failures and interrupts during the call propagate as exceptions. The
issued request is recorded in the trace in every case. -/
def make_request (h : Handler σ) (cfg : Config) (s : St σ)
    (endpoint : String) (method : Method) (data : Option Body) :
    St σ × Except Exc ApiResponse :=
  let req := mkReq cfg endpoint method data
  let pr := h s.prov req
  let s := { s with prov := pr.1, calls := s.calls ++ [req] }
  match pr.2 with
  | .interrupt => (s, .error .keyboardInterrupt)
  | .transportError m => (s, .error (.transportError m))
  | .response r =>
    if r.success = some true then (s, .ok r)
    else (s, .error (.apiError r.errors))

/-- The enumeration lines printed for existing rules (1-based index,
description, action, enabled flag as Python renders booleans, blank
separator). -/
def ruleLines : Nat → List Rule → List String
  | _, [] => []
  | i, r :: rs =>
    (toString i ++ ". " ++ r.description) ::
    ("   Action: " ++ r.action) ::
    ("   Enabled: " ++ (if r.enabled then "True" else "False")) ::
    "" :: ruleLines (i + 1) rs

/-- list_existing_rules: one GET of the entrypoint; enumerate the rules
when the result object and a non-empty rules list are present, otherwise
print the no-rules message; Exception failures are caught and logged
locally (only an interrupt propagates). -/
def list_existing_rules (h : Handler σ) (cfg : Config) (s : St σ) :
    St σ × Option Exc :=
  let s := echo s "📋 Listing existing security rules...\n"
  match make_request h cfg s (entrypointPath cfg.ZONE_ID) .GET none with
  | (s, .ok result) =>
    match result.result with
    | some res =>
      match res.rules with
      | some rules =>
        if rules.isEmpty then (echo s "No existing rules found.\n", none)
        else
          let s := echo s ("Found " ++ toString rules.length ++ " existing rules:\n")
          ((ruleLines 1 rules).foldl echo s, none)
      | none => (echo s "No existing rules found.\n", none)
    | none => (echo s "No existing rules found.\n", none)
  | (s, .error e) =>
    if e.isException then
      (echo s ("❌ Failed to list rules: " ++ e.msg ++ "\n"), none)
    else (s, some e)

/-- delete_all_rules: one PUT of the entrypoint with an empty rules list;
Exception failures are caught and logged locally. -/
def delete_all_rules (h : Handler σ) (cfg : Config) (s : St σ) :
    St σ × Option Exc :=
  let s := echo s "🗑️  Deleting all existing security rules...\n"
  match make_request h cfg s (entrypointPath cfg.ZONE_ID) .PUT
      (some (.rules [])) with
  | (s, .ok _) => (echo s "✅ All rules deleted!\n", none)
  | (s, .error e) =>
    if e.isException then
      (echo s ("❌ Failed to delete rules: " ++ e.msg ++ "\n"), none)
    else (s, some e)

/-- The POST target used for every rule: the rulesets/id/rules path when
the resolved ruleset id is truthy (present and non-empty), else the phase
entrypoint path, exactly the conditional expression of the script. -/
def addTarget (cfg : Config) (rulesetId : Option String) : String :=
  match rulesetId with
  | some rid => if rid = "" then entrypointPath cfg.ZONE_ID else rulesPath cfg.ZONE_ID rid
  | none => entrypointPath cfg.ZONE_ID

/-- The per-rule loop of add_security_rules: print the header with the
1-based index over 5 and the description truncated to 60 characters, POST
the rule, print the success line or catch an Exception and print the
failure line, continue with the next rule; an interrupt during the POST
propagates out of the loop. -/
def addRulesLoop (h : Handler σ) (cfg : Config) (rulesetId : Option String) :
    Nat → List Rule → St σ → St σ × Option Exc
  | _, [], s => (s, none)
  | i, r :: rs, s =>
    let s := echo s ("📝 Adding Rule " ++ toString i ++ "/5: " ++ pySlice r.description 60 ++ "...")
    match make_request h cfg s (addTarget cfg rulesetId) .POST (some (.rule r)) with
    | (s, .ok _) => addRulesLoop h cfg rulesetId (i + 1) rs (echo s "   ✅ Success!\n")
    | (s, .error e) =>
      if e.isException then
        addRulesLoop h cfg rulesetId (i + 1) rs
          (echo s ("   ❌ Failed: " ++ e.msg ++ "\n"))
      else (s, some e)

/-- add_security_rules: resolve the ruleset id with a GET of the
entrypoint under a bare except (so every failure, interrupts included,
yields no id), then run the per-rule loop over SECURITY_RULES. -/
def add_security_rules (h : Handler σ) (cfg : Config) (s : St σ) :
    St σ × Option Exc :=
  let s := echo s "🔥 Adding Cloudflare Security Rules...\n"
  let rr := make_request h cfg s (entrypointPath cfg.ZONE_ID) .GET none
  let rulesetId : Option String :=
    match rr.2 with
    | .ok result =>
      match result.result with
      | some res => res.id
      | none => none
    | .error _ => none
  match addRulesLoop h cfg rulesetId 1 SECURITY_RULES rr.1 with
  | (s, none) => (echo s "✅ All security rules added!\n", none)
  | (s, some e) => (s, some e)

/-- The per-setting loop of configure_security_settings: one PATCH per
(setting, value) pair, Exception failures caught and logged, iteration
continuing; an interrupt propagates. -/
def settingsLoop (h : Handler σ) (cfg : Config) :
    List (String × String × String) → St σ → St σ × Option Exc
  | [], s => (s, none)
  | (st, v, message) :: rest, s =>
    match make_request h cfg s (settingPath cfg.ZONE_ID st) .PATCH
        (some (.value v)) with
    | (s, .ok _) => settingsLoop h cfg rest (echo s ("✅ " ++ message))
    | (s, .error e) =>
      if e.isException then
        settingsLoop h cfg rest (echo s ("❌ Failed to set " ++ st ++ ": " ++ e.msg))
      else (s, some e)

/-- configure_security_settings: iterate the settings table. -/
def configure_security_settings (h : Handler σ) (cfg : Config) (s : St σ) :
    St σ × Option Exc :=
  let s := echo s "🔐 Configuring security settings...\n"
  match settingsLoop h cfg settingsTable s with
  | (s, none) => (echo s "", none)
  | (s, some e) => (s, some e)

/-- Outcome of main: a normal return, a sys.exit with the given code
(SystemExit, not caught by the except Exception guard), or a propagating
exception. -/
inductive MainOutcome
  | ret
  | exit (code : Nat)
  | exc (e : Exc)
  deriving DecidableEq

/-- The 63-character border line of the banner and the summary. -/
def borderLine : String := String.mk (List.replicate 63 '═')

/-- The completion summary printed at the end of the setup branch. -/
def summaryLines : List String := [
  borderLine,
  "✅  SETUP COMPLETE!",
  borderLine,
  "\n",
  "🎯 Next Steps:",
  "1. Visit https://dash.cloudflare.com and verify the rules",
  "2. Test your website to ensure no false positives",
  "3. Monitor Security → Events for blocked traffic",
  "4. Update Rule 5 with your development IP address\n"
]

/-- The tail of the setup branch after confirmation: delete when --delete
is among the arguments (unreachable in practice, kept as written), then
add_security_rules, then configure_security_settings, then the summary. -/
def setupRest (h : Handler σ) (cfg : Config) (args : List String) (s : St σ) :
    St σ × MainOutcome :=
  let dr := if "--delete" ∈ args then delete_all_rules h cfg s else (s, none)
  match dr with
  | (s, some e) => (s, .exc e)
  | (s, none) =>
    match add_security_rules h cfg s with
    | (s, some e) => (s, .exc e)
    | (s, none) =>
      match configure_security_settings h cfg s with
      | (s, some e) => (s, .exc e)
      | (s, none) => (summaryLines.foldl echo s, .ret)

/-- The usage text. -/
def usageLines : List String := [
  "Usage:",
  "  python cloudflare-setup.py --list              # List existing rules",
  "  python cloudflare-setup.py --delete            # Delete all existing rules",
  "  python cloudflare-setup.py --setup             # Add all security rules",
  "  python cloudflare-setup.py --setup --delete    # Delete old rules and add new ones",
  "  python cloudflare-setup.py --setup --force     # Skip confirmation prompts\n"
]

/-- main: banner, placeholder validation (sys.exit 1 before any call when
either credential is still a placeholder), then the flag dispatch in the
order of the script: --list, then --delete, then --setup, else usage. -/
def main (h : Handler σ) (cfg : Config) (args : List String) (s : St σ) :
    St σ × MainOutcome :=
  let s := echo s "\n"
  let s := echo s borderLine
  let s := echo s "🏳️‍🌈  PRYDE SOCIAL - CLOUDFLARE SECURITY SETUP"
  let s := echo s borderLine
  let s := echo s "\n"
  if cfg.isPlaceholder then
    let s := echo s "❌ ERROR: Please update CLOUDFLARE_API_TOKEN and ZONE_ID in the script!\n"
    let s := echo s "📝 Instructions:"
    let s := echo s "1. Get API Token: https://dash.cloudflare.com/profile/api-tokens"
    let s := echo s "2. Get Zone ID: https://dash.cloudflare.com (select your domain)\n"
    (s, .exit 1)
  else if "--list" ∈ args then
    match list_existing_rules h cfg s with
    | (s, none) => (s, .ret)
    | (s, some e) => (s, .exc e)
  else if "--delete" ∈ args then
    match list_existing_rules h cfg s with
    | (s, some e) => (s, .exc e)
    | (s, none) =>
      let s := echo s "⚠️  Are you sure you want to delete ALL rules? (yes/no): "
      match inputLine s with
      | (s, .error e) => (s, .exc e)
      | (s, .ok confirm) =>
        if pyLower confirm = "yes" then
          match delete_all_rules h cfg s with
          | (s, none) => (s, .ret)
          | (s, some e) => (s, .exc e)
        else (echo s "Cancelled.\n", .ret)
  else if "--setup" ∈ args then
    match list_existing_rules h cfg s with
    | (s, some e) => (s, .exc e)
    | (s, none) =>
      let s := echo s "⚠️  WARNING: This will add 5 new security rules to your Cloudflare account."
      let s := echo s "   If you already have rules, you may exceed the free plan limit (5 rules).\n"
      if "--force" ∈ args then setupRest h cfg args s
      else
        let s := echo s "Continue? (yes/no): "
        match inputLine s with
        | (s, .error e) => (s, .exc e)
        | (s, .ok confirm) =>
          if pyLower confirm ≠ "yes" then (echo s "Cancelled.\n", .exit 0)
          else setupRest h cfg args s
  else
    (usageLines.foldl echo s, .ret)

/-- The try/except of the __main__ guard as a function of the outcome of
main: a normal return exits 0, sys.exit carries its code,
KeyboardInterrupt is caught with the cancellation message and exit 0, any
other exception prints the fatal message and exits 1. -/
def guardResult (p : St σ × MainOutcome) : St σ × Nat :=
  match p with
  | (s, .ret) => (s, 0)
  | (s, .exit code) => (s, code)
  | (s, .exc .keyboardInterrupt) => (echo s "\n\n❌ Cancelled by user.\n", 0)
  | (s, .exc e) => (echo s ("\n❌ Fatal error: " ++ e.msg ++ "\n"), 1)

/-- The whole process: main under the top-level guard. -/
def run (h : Handler σ) (cfg : Config) (args : List String) (s : St σ) :
    St σ × Nat :=
  guardResult (main h cfg args s)

/-! Derived notions used to state and prove the claims. -/

/-- What make_request hands back for a given call outcome: the decoded
response exactly when the success field is the boolean true, an error
otherwise. -/
def CallOutcome.toResult : CallOutcome → Except Exc ApiResponse
  | .interrupt => .error .keyboardInterrupt
  | .transportError m => .error (.transportError m)
  | .response r =>
    if r.success = some true then .ok r else .error (.apiError r.errors)

/-- The exception, if any, that make_request raises for this outcome. -/
def CallOutcome.excOf (co : CallOutcome) : Option Exc :=
  match co.toResult with
  | .ok _ => none
  | .error e => some e

/-- The ruleset id add_security_rules resolves from the outcome of its
entrypoint GET: the id field of the result object of a successful
response, and nothing in every failure case (the bare except). -/
def resolveOutcome (co : CallOutcome) : Option String :=
  match co.toResult with
  | .ok result =>
    match result.result with
    | some res => res.id
    | none => none
  | .error _ => none

/-- The entrypoint GET request (used by list_existing_rules and by the
ruleset id resolution of add_security_rules). -/
def listReq (cfg : Config) : Request :=
  mkReq cfg (entrypointPath cfg.ZONE_ID) .GET none

/-- The ruleset replacement PUT issued by delete_all_rules. -/
def deleteReq (cfg : Config) : Request :=
  mkReq cfg (entrypointPath cfg.ZONE_ID) .PUT (some (.rules []))

/-- The POST appending one rule, at the target selected by the resolved
ruleset id. -/
def rulePostReq (cfg : Config) (rid : Option String) (r : Rule) : Request :=
  mkReq cfg (addTarget cfg rid) .POST (some (.rule r))

/-- The PATCH for one settings table entry. -/
def settingReq (cfg : Config) (t : String × String × String) : Request :=
  mkReq cfg (settingPath cfg.ZONE_ID t.1) .PATCH (some (.value t.2.1))

/-- The transcript of list_existing_rules as a function of the GET
outcome. -/
def listOutput (co : CallOutcome) : List String :=
  "📋 Listing existing security rules...\n" ::
  match co.toResult with
  | .ok result =>
    match result.result with
    | some res =>
      match res.rules with
      | some rules =>
        if rules.isEmpty then ["No existing rules found.\n"]
        else ("Found " ++ toString rules.length ++ " existing rules:\n") ::
          ruleLines 1 rules
      | none => ["No existing rules found.\n"]
    | none => ["No existing rules found.\n"]
  | .error e =>
    if e.isException then ["❌ Failed to list rules: " ++ e.msg ++ "\n"]
    else []

/-- The transcript of delete_all_rules as a function of the PUT
outcome. -/
def deleteOutput (co : CallOutcome) : List String :=
  "🗑️  Deleting all existing security rules...\n" ::
  match co.toResult with
  | .ok _ => ["✅ All rules deleted!\n"]
  | .error e =>
    if e.isException then ["❌ Failed to delete rules: " ++ e.msg ++ "\n"]
    else []

/-- The per-attempt line following the header in the add-rules loop:
success, or the logged failure with the exception message. -/
def attemptLine (co : CallOutcome) : String :=
  match co.excOf with
  | none => "   ✅ Success!\n"
  | some e => "   ❌ Failed: " ++ e.msg ++ "\n"

/-- The transcript of the add-rules loop against a response sequence o,
starting at call number n with 1-based rule index i. -/
def loopOutput (o : Nat → CallOutcome) : Nat → Nat → List Rule → List String
  | _, _, [] => []
  | n, i, r :: rs =>
    ("📝 Adding Rule " ++ toString i ++ "/5: " ++ pySlice r.description 60 ++ "...") ::
    attemptLine (o n) :: loopOutput o (n + 1) (i + 1) rs

/-- The handler induced by a response sequence: the world state is the
number of calls made so far and the outcome of the n-th call is o n,
independent of the request. -/
def oracleHandler (o : Nat → CallOutcome) : Handler Nat :=
  fun n _ => (n + 1, o n)

/-- Modelled from the spec: the provider API is an external collaborator
(spec sections 4.3 and 6); its state is the ordered rule list of the
zones custom-firewall ruleset. The entrypoint GET returns the current
ruleset, the PUT with a rules body replaces it, the POST of one rule
appends it, and every call reports success. -/
def providerHandle : Handler (List Rule) := fun st req =>
  match req.method, req.body with
  | .GET, _ =>
    (st, .response { success := some true, errors := [],
                     result := some { id := some "ruleset-1", rules := some st } })
  | .PUT, some (.rules rs) =>
    (rs, .response { success := some true, errors := [],
                     result := some { id := some "ruleset-1", rules := some rs } })
  | .POST, some (.rule r) =>
    (st ++ [r], .response { success := some true, errors := [], result := none })
  | _, _ =>
    (st, .response { success := some true, errors := [], result := none })

/-- A handler that never delivers a keyboard interrupt during a call. -/
def HNoInt (h : Handler σ) : Prop :=
  ∀ p r, (h p r).2 ≠ CallOutcome.interrupt

/-- A response sequence without keyboard interrupts. -/
def noInterrupt (o : Nat → CallOutcome) : Prop :=
  ∀ k, o k ≠ CallOutcome.interrupt

/-- A request is mutating when its method is anything but GET. -/
def Request.isMutating (r : Request) : Bool :=
  match r.method with
  | .GET => false
  | _ => true

/-- The rule bodies of the POSTed rule-append requests of a trace, in
trace order. -/
def rulePostBodies (calls : List Request) : List Rule :=
  calls.filterMap fun r =>
    match r.method, r.body with
    | .POST, some (.rule ru) => some ru
    | _, _ => none

/-! Basic lemmas about the embedding. -/

theorem echo_calls (s : St σ) (l : String) : (echo s l).calls = s.calls := rfl

theorem echo_stdin (s : St σ) (l : String) : (echo s l).stdin = s.stdin := rfl

theorem echo_prov (s : St σ) (l : String) : (echo s l).prov = s.prov := rfl

theorem echo_output (s : St σ) (l : String) :
    (echo s l).output = s.output ++ [l] := rfl

theorem foldl_echo_eq (ls : List String) (s : St σ) :
    ls.foldl echo s = { s with output := s.output ++ ls } := by
  induction ls generalizing s with
  | nil => simp
  | cons l ls ih =>
    simp only [List.foldl_cons]
    rw [ih (echo s l)]
    simp [echo]

theorem make_request_eq (h : Handler σ) (cfg : Config) (s : St σ)
    (e : String) (m : Method) (d : Option Body) :
    make_request h cfg s e m d =
      ({ s with prov := (h s.prov (mkReq cfg e m d)).1,
                calls := s.calls ++ [mkReq cfg e m d] },
       ((h s.prov (mkReq cfg e m d)).2).toResult) := by
  rcases hx : (h s.prov (mkReq cfg e m d)).2 with r | msg | _ <;>
    simp [make_request, CallOutcome.toResult, hx]
  split <;> rfl

theorem toResult_kb_iff (co : CallOutcome) :
    co.toResult = .error .keyboardInterrupt ↔ co = .interrupt := by
  rcases co with r | msg | _
  · constructor
    · intro h
      by_cases hs : r.success = some true <;>
        simp [CallOutcome.toResult, hs] at h
    · intro h; simp at h
  · simp [CallOutcome.toResult]
  · simp [CallOutcome.toResult]

theorem toResult_error_isException (co : CallOutcome) (e : Exc)
    (hco : co ≠ .interrupt) (he : co.toResult = .error e) :
    e.isException = true := by
  rcases co with r | msg | _
  · by_cases hs : r.success = some true
    · simp [CallOutcome.toResult, hs] at he
    · simp [CallOutcome.toResult, hs] at he
      subst he
      rfl
  · simp [CallOutcome.toResult] at he
    subst he
    rfl
  · exact absurd rfl hco

theorem inputLine_cons_line (s : St σ) (c : String) (rest : List StdinEvent)
    (hs : s.stdin = .line c :: rest) :
    inputLine s = ({ s with stdin := rest }, .ok c) := by
  simp [inputLine, hs]

theorem inputLine_cons_interrupt (s : St σ) (rest : List StdinEvent)
    (hs : s.stdin = .interrupt :: rest) :
    inputLine s = ({ s with stdin := rest }, .error .keyboardInterrupt) := by
  simp [inputLine, hs]

theorem inputLine_nil (s : St σ) (hs : s.stdin = []) :
    inputLine s = (s, .error .eofError) := by
  simp [inputLine, hs]

theorem listReq_not_mutating (cfg : Config) :
    (listReq cfg).isMutating = false := rfl

theorem guardResult_of_ret (p : St σ × MainOutcome)
    (hp : p.2 = MainOutcome.ret) : guardResult p = (p.1, 0) := by
  rcases p with ⟨s1, mo⟩
  cases mo with
  | ret => rfl
  | exit code => simp at hp
  | exc e => simp at hp

/-- The line printed for one settings table entry, as a function of the
PATCH outcome. -/
def settingLine (t : String × String × String) (co : CallOutcome) : String :=
  match co.excOf with
  | none => "✅ " ++ t.2.2
  | some e => "❌ Failed to set " ++ t.1 ++ ": " ++ e.msg

/-- The transcript of the settings loop against a response sequence o,
starting at call number n. -/
def settingsOutput (o : Nat → CallOutcome) :
    Nat → List (String × String × String) → List String
  | _, [] => []
  | n, t :: rest => settingLine t (o n) :: settingsOutput o (n + 1) rest

theorem settingsLoop_oracle_eq (o : Nat → CallOutcome) (cfg : Config)
    (hni : noInterrupt o) :
    ∀ (tbl : List (String × String × String)) (s : St Nat),
    settingsLoop (oracleHandler o) cfg tbl s =
      ({ prov := s.prov + tbl.length,
         calls := s.calls ++ tbl.map (settingReq cfg),
         output := s.output ++ settingsOutput o s.prov tbl,
         stdin := s.stdin }, none) := by
  intro tbl
  induction tbl with
  | nil => intro s; simp [settingsLoop, settingsOutput]
  | cons t rest ih =>
    intro s
    rcases t with ⟨st, v, message⟩
    rcases hx : o s.prov with r2 | msg | _
    · by_cases hs : r2.success = some true <;>
        simp [settingsLoop, make_request_eq, oracleHandler, echo, hx, hs, ih,
          settingLine, settingsOutput, CallOutcome.excOf, CallOutcome.toResult,
          settingReq, Exc.isException, Nat.add_assoc, Nat.add_comm,
          Nat.add_left_comm]
    · simp [settingsLoop, make_request_eq, oracleHandler, echo, hx, ih,
        settingLine, settingsOutput, CallOutcome.excOf, CallOutcome.toResult,
        settingReq, Exc.isException, Nat.add_assoc, Nat.add_comm,
        Nat.add_left_comm]
    · exact absurd hx (hni s.prov)

theorem configure_security_settings_oracle_eq (o : Nat → CallOutcome)
    (cfg : Config) (hni : noInterrupt o) (s : St Nat) :
    configure_security_settings (oracleHandler o) cfg s =
      ({ prov := s.prov + settingsTable.length,
         calls := s.calls ++ settingsTable.map (settingReq cfg),
         output := s.output ++ "🔐 Configuring security settings...\n" ::
           (settingsOutput o s.prov settingsTable ++ [""]),
         stdin := s.stdin }, none) := by
  simp [configure_security_settings, settingsLoop_oracle_eq o cfg hni, echo]

theorem rulePostBodies_append (l1 l2 : List Request) :
    rulePostBodies (l1 ++ l2) = rulePostBodies l1 ++ rulePostBodies l2 := by
  simp [rulePostBodies]

theorem rulePostBodies_map_post (cfg : Config) (rid : Option String)
    (rules : List Rule) :
    rulePostBodies (rules.map (rulePostReq cfg rid)) = rules := by
  induction rules with
  | nil => rfl
  | cons r rs ih => simp [rulePostBodies, rulePostReq, mkReq] at ih ⊢; exact ih

theorem rulePostBodies_map_setting (cfg : Config)
    (tbl : List (String × String × String)) :
    rulePostBodies (tbl.map (settingReq cfg)) = [] := by
  induction tbl with
  | nil => rfl
  | cons t rest ih =>
    simp [rulePostBodies, settingReq, mkReq] at ih ⊢
    try exact ih

theorem rulePostBodies_listReq (cfg : Config) :
    rulePostBodies [listReq cfg] = [] := rfl

theorem rulePostBodies_deleteReq (cfg : Config) :
    rulePostBodies [deleteReq cfg] = [] := rfl

theorem rulePostBodies_cons_listReq (cfg : Config) (l : List Request) :
    rulePostBodies (listReq cfg :: l) = rulePostBodies l := rfl

theorem rulePostBodies_cons_deleteReq (cfg : Config) (l : List Request) :
    rulePostBodies (deleteReq cfg :: l) = rulePostBodies l := rfl

theorem list_existing_rules_eq (h : Handler σ) (cfg : Config) (s : St σ) :
    list_existing_rules h cfg s =
      ({ prov := (h s.prov (listReq cfg)).1,
         calls := s.calls ++ [listReq cfg],
         output := s.output ++ listOutput (h s.prov (listReq cfg)).2,
         stdin := s.stdin },
       if (h s.prov (listReq cfg)).2 = CallOutcome.interrupt then
         some Exc.keyboardInterrupt
       else none) := by
  rcases hx : (h s.prov (mkReq cfg (entrypointPath cfg.ZONE_ID) .GET none)).2
    with r | msg | _
  · by_cases hs : r.success = some true
    · rcases hrr : r.result with _ | res
      · simp [list_existing_rules, make_request_eq, listReq, echo, hx, hs, hrr,
          listOutput, CallOutcome.toResult]
      · rcases hrl : res.rules with _ | rules
        · simp [list_existing_rules, make_request_eq, listReq, echo, hx, hs, hrr,
            hrl, listOutput, CallOutcome.toResult]
        · by_cases hre : rules.isEmpty <;>
            simp [list_existing_rules, make_request_eq, listReq, echo, hx, hs,
              hrr, hrl, hre, listOutput, CallOutcome.toResult, foldl_echo_eq]
    · simp [list_existing_rules, make_request_eq, listReq, echo, hx, hs,
        listOutput, CallOutcome.toResult, Exc.isException]
  · simp [list_existing_rules, make_request_eq, listReq, echo, hx,
      listOutput, CallOutcome.toResult, Exc.isException]
  · simp [list_existing_rules, make_request_eq, listReq, echo, hx,
      listOutput, CallOutcome.toResult, Exc.isException]

theorem addRulesLoop_oracle_eq (o : Nat → CallOutcome) (cfg : Config)
    (rid : Option String) (hni : noInterrupt o) :
    ∀ (rules : List Rule) (i : Nat) (s : St Nat),
    addRulesLoop (oracleHandler o) cfg rid i rules s =
      ({ prov := s.prov + rules.length,
         calls := s.calls ++ rules.map (rulePostReq cfg rid),
         output := s.output ++ loopOutput o s.prov i rules,
         stdin := s.stdin }, none) := by
  intro rules
  induction rules with
  | nil => intro i s; simp [addRulesLoop, loopOutput]
  | cons r rs ih =>
    intro i s
    rcases hx : o s.prov with r2 | msg | _
    · by_cases hs : r2.success = some true <;>
        simp [addRulesLoop, make_request_eq, oracleHandler, echo, hx, hs, ih,
          attemptLine, CallOutcome.excOf, CallOutcome.toResult, rulePostReq,
          loopOutput, Exc.isException, Nat.add_assoc, Nat.add_comm,
          Nat.add_left_comm]
    · simp [addRulesLoop, make_request_eq, oracleHandler, echo, hx, ih,
        attemptLine, CallOutcome.excOf, CallOutcome.toResult, rulePostReq,
        loopOutput, Exc.isException, Nat.add_assoc, Nat.add_comm,
        Nat.add_left_comm]
    · exact absurd hx (hni s.prov)

theorem add_security_rules_oracle_eq (o : Nat → CallOutcome) (cfg : Config)
    (hni : noInterrupt o) (s : St Nat) :
    add_security_rules (oracleHandler o) cfg s =
      ({ prov := s.prov + 1 + SECURITY_RULES.length,
         calls := s.calls ++ listReq cfg ::
           SECURITY_RULES.map (rulePostReq cfg (resolveOutcome (o s.prov))),
         output := s.output ++ "🔥 Adding Cloudflare Security Rules...\n" ::
           (loopOutput o (s.prov + 1) 1 SECURITY_RULES ++
             ["✅ All security rules added!\n"]),
         stdin := s.stdin }, none) := by
  rcases hx : o s.prov with r | msg | _
  · by_cases hs : r.success = some true
    · rcases hrr : r.result with _ | res <;>
        simp [add_security_rules, make_request_eq, oracleHandler, echo, hx, hs,
          hrr, resolveOutcome, CallOutcome.toResult, listReq,
          addRulesLoop_oracle_eq o cfg _ hni]
    · simp [add_security_rules, make_request_eq, oracleHandler, echo, hx, hs,
        resolveOutcome, CallOutcome.toResult, listReq,
        addRulesLoop_oracle_eq o cfg _ hni]
  · simp [add_security_rules, make_request_eq, oracleHandler, echo, hx,
      resolveOutcome, CallOutcome.toResult, listReq,
      addRulesLoop_oracle_eq o cfg _ hni]
  · exact absurd hx (hni s.prov)

theorem delete_all_rules_eq (h : Handler σ) (cfg : Config) (s : St σ) :
    delete_all_rules h cfg s =
      ({ prov := (h s.prov (deleteReq cfg)).1,
         calls := s.calls ++ [deleteReq cfg],
         output := s.output ++ deleteOutput (h s.prov (deleteReq cfg)).2,
         stdin := s.stdin },
       if (h s.prov (deleteReq cfg)).2 = CallOutcome.interrupt then
         some Exc.keyboardInterrupt
       else none) := by
  rcases hx : (h s.prov
      (mkReq cfg (entrypointPath cfg.ZONE_ID) .PUT (some (.rules [])))).2
    with r | msg | _
  · by_cases hs : r.success = some true <;>
      simp [delete_all_rules, make_request_eq, deleteReq, echo, hx, hs,
        deleteOutput, CallOutcome.toResult, Exc.isException]
  · simp [delete_all_rules, make_request_eq, deleteReq, echo, hx,
      deleteOutput, CallOutcome.toResult, Exc.isException]
  · simp [delete_all_rules, make_request_eq, deleteReq, echo, hx,
      deleteOutput, CallOutcome.toResult, Exc.isException]

/-- The banner printed at the start of every run. -/
def bannerOut : List String :=
  ["\n",
   borderLine,
   "🏳️‍🌈  PRYDE SOCIAL - CLOUDFLARE SECURITY SETUP",
   borderLine,
   "\n"]

/-- A rule body found among the POSTed rule bodies of a trace exhibits a
mutating request in that trace. -/
theorem exists_mutating_of_rulePostBodies (l : List Request) (ru : Rule)
    (h : ru ∈ rulePostBodies l) : ∃ r ∈ l, r.isMutating = true := by
  rw [rulePostBodies, List.mem_filterMap] at h
  obtain ⟨r, hrl, hf⟩ := h
  refine ⟨r, hrl, ?_⟩
  rcases hm : r.method <;> rcases hb : r.body with _ | b <;>
    rw [hm, hb] at hf <;> first
      | (rcases b with rs | b1 | v <;> simp_all [Request.isMutating])
      | simp_all [Request.isMutating]

theorem addRulesLoop_oracle_eq_local (o : Nat → CallOutcome) (cfg : Config)
    (rid : Option String) :
    ∀ (rules : List Rule) (i : Nat) (s : St Nat),
    (∀ j, j < rules.length → o (s.prov + j) ≠ CallOutcome.interrupt) →
    addRulesLoop (oracleHandler o) cfg rid i rules s =
      ({ prov := s.prov + rules.length,
         calls := s.calls ++ rules.map (rulePostReq cfg rid),
         output := s.output ++ loopOutput o s.prov i rules,
         stdin := s.stdin }, none) := by
  intro rules
  induction rules with
  | nil => intro i s hj; simp [addRulesLoop, loopOutput]
  | cons r rs ih =>
    intro i s hj
    have h0 : o s.prov ≠ CallOutcome.interrupt := by
      simpa using hj 0 (by simp)
    have hstep : addRulesLoop (oracleHandler o) cfg rid i (r :: rs) s =
        addRulesLoop (oracleHandler o) cfg rid (i + 1) rs
          { prov := s.prov + 1,
            calls := s.calls ++ [rulePostReq cfg rid r],
            output := s.output ++
              [("📝 Adding Rule " ++ toString i ++ "/5: " ++
                  pySlice r.description 60 ++ "..."),
               attemptLine (o s.prov)],
            stdin := s.stdin } := by
      rcases hx : o s.prov with r2 | msg | _
      · by_cases hs2 : r2.success = some true <;>
          simp [addRulesLoop, make_request_eq, oracleHandler, echo, hx, hs2,
            attemptLine, CallOutcome.excOf, CallOutcome.toResult, rulePostReq,
            Exc.isException]
      · simp [addRulesLoop, make_request_eq, oracleHandler, echo, hx,
          attemptLine, CallOutcome.excOf, CallOutcome.toResult, rulePostReq,
          Exc.isException]
      · exact absurd hx h0
    rw [hstep]
    refine (ih (i + 1) _ ?_).trans ?_
    · intro j hjj
      simp only []
      have e : s.prov + 1 + j = s.prov + (j + 1) := by omega
      rw [e]
      exact hj (j + 1) (by simpa using Nat.succ_lt_succ hjj)
    · simp [loopOutput, Nat.add_assoc, Nat.add_comm, Nat.add_left_comm]

theorem add_security_rules_oracle_eq_local (o : Nat → CallOutcome)
    (cfg : Config) (s : St Nat)
    (hj : ∀ j, j ≤ 5 → o (s.prov + j) ≠ CallOutcome.interrupt) :
    add_security_rules (oracleHandler o) cfg s =
      ({ prov := s.prov + 1 + SECURITY_RULES.length,
         calls := s.calls ++ listReq cfg ::
           SECURITY_RULES.map (rulePostReq cfg (resolveOutcome (o s.prov))),
         output := s.output ++ "🔥 Adding Cloudflare Security Rules...\n" ::
           (loopOutput o (s.prov + 1) 1 SECURITY_RULES ++
             ["✅ All security rules added!\n"]),
         stdin := s.stdin }, none) := by
  have h0 : o s.prov ≠ CallOutcome.interrupt := by
    simpa using hj 0 (by omega)
  have hloop : ∀ rid, addRulesLoop (oracleHandler o) cfg rid 1 SECURITY_RULES
      { prov := s.prov + 1,
        calls := s.calls ++
          [mkReq cfg (entrypointPath cfg.ZONE_ID) Method.GET none],
        output := s.output ++ ["🔥 Adding Cloudflare Security Rules...\n"],
        stdin := s.stdin } =
      ({ prov := s.prov + 1 + SECURITY_RULES.length,
         calls := (s.calls ++
           [mkReq cfg (entrypointPath cfg.ZONE_ID) Method.GET none]) ++
           SECURITY_RULES.map (rulePostReq cfg rid),
         output := (s.output ++ ["🔥 Adding Cloudflare Security Rules...\n"]) ++
           loopOutput o (s.prov + 1) 1 SECURITY_RULES,
         stdin := s.stdin }, none) := by
    intro rid
    refine (addRulesLoop_oracle_eq_local o cfg rid SECURITY_RULES 1 _ ?_).trans ?_
    · intro j hjj
      simp only []
      have e : s.prov + 1 + j = s.prov + (j + 1) := by omega
      rw [e]
      refine hj (j + 1) ?_
      have : j < 5 := by simpa [SECURITY_RULES] using hjj
      omega
    · simp
  rcases hx : o s.prov with r | msg | _
  · by_cases hs2 : r.success = some true
    · rcases hrr : r.result with _ | res <;>
        simp [add_security_rules, make_request_eq, oracleHandler, echo, hx,
          hs2, hrr, resolveOutcome, CallOutcome.toResult, listReq, hloop]
    · simp [add_security_rules, make_request_eq, oracleHandler, echo, hx,
        hs2, resolveOutcome, CallOutcome.toResult, listReq, hloop]
  · simp [add_security_rules, make_request_eq, oracleHandler, echo, hx,
      resolveOutcome, CallOutcome.toResult, listReq, hloop]
  · exact absurd hx h0

theorem addRulesLoop_oracle_interrupt (o : Nat → CallOutcome) (cfg : Config)
    (rid : Option String) :
    ∀ (rules : List Rule) (i : Nat) (s : St Nat) (m : Nat),
    m < rules.length →
    (∀ j, j < m → o (s.prov + j) ≠ CallOutcome.interrupt) →
    o (s.prov + m) = CallOutcome.interrupt →
    (addRulesLoop (oracleHandler o) cfg rid i rules s).2 =
      some Exc.keyboardInterrupt := by
  intro rules
  induction rules with
  | nil =>
    intro i s m hm hj hint
    exact absurd hm (by simp)
  | cons r rs ih =>
    intro i s m hm hj hint
    rcases m with _ | m2
    · have h0 : o s.prov = CallOutcome.interrupt := by simpa using hint
      simp [addRulesLoop, make_request_eq, oracleHandler, echo, h0,
        CallOutcome.toResult, Exc.isException]
    · have h0 : o s.prov ≠ CallOutcome.interrupt := by
        simpa using hj 0 (by omega)
      rcases hx : o s.prov with r2 | msg | _
      · by_cases hs2 : r2.success = some true
        · simp only [addRulesLoop, make_request_eq, oracleHandler, echo, hx,
            hs2, CallOutcome.toResult, if_true, reduceIte]
          refine ih (i + 1) _ m2 (by simpa using Nat.lt_of_succ_lt_succ hm) ?_ ?_
          · intro j hjj
            simp only [echo]
            have e : s.prov + 1 + j = s.prov + (j + 1) := by omega
            rw [e]
            exact hj (j + 1) (by omega)
          · simp only [echo]
            have e : s.prov + 1 + m2 = s.prov + (m2 + 1) := by omega
            rw [e]
            exact hint
        · simp only [addRulesLoop, make_request_eq, oracleHandler, echo, hx,
            CallOutcome.toResult]
          rw [if_neg hs2]
          simp only [Exc.isException, if_true, reduceIte]
          refine ih (i + 1) _ m2 (by simpa using Nat.lt_of_succ_lt_succ hm) ?_ ?_
          · intro j hjj
            simp only [echo]
            have e : s.prov + 1 + j = s.prov + (j + 1) := by omega
            rw [e]
            exact hj (j + 1) (by omega)
          · simp only [echo]
            have e : s.prov + 1 + m2 = s.prov + (m2 + 1) := by omega
            rw [e]
            exact hint
      · simp only [addRulesLoop, make_request_eq, oracleHandler, echo, hx,
          CallOutcome.toResult, Exc.isException, if_true, reduceIte]
        refine ih (i + 1) _ m2 (by simpa using Nat.lt_of_succ_lt_succ hm) ?_ ?_
        · intro j hjj
          simp only [echo]
          have e : s.prov + 1 + j = s.prov + (j + 1) := by omega
          rw [e]
          exact hj (j + 1) (by omega)
        · simp only [echo]
          have e : s.prov + 1 + m2 = s.prov + (m2 + 1) := by omega
          rw [e]
          exact hint
      · exact absurd hx h0

theorem settingsLoop_oracle_interrupt (o : Nat → CallOutcome) (cfg : Config) :
    ∀ (tbl : List (String × String × String)) (s : St Nat) (m : Nat),
    m < tbl.length →
    (∀ j, j < m → o (s.prov + j) ≠ CallOutcome.interrupt) →
    o (s.prov + m) = CallOutcome.interrupt →
    (settingsLoop (oracleHandler o) cfg tbl s).2 =
      some Exc.keyboardInterrupt := by
  intro tbl
  induction tbl with
  | nil =>
    intro s m hm hj hint
    exact absurd hm (by simp)
  | cons t rest ih =>
    intro s m hm hj hint
    rcases t with ⟨st, v, message⟩
    rcases m with _ | m2
    · have h0 : o s.prov = CallOutcome.interrupt := by simpa using hint
      simp [settingsLoop, make_request_eq, oracleHandler, echo, h0,
        CallOutcome.toResult, Exc.isException]
    · have h0 : o s.prov ≠ CallOutcome.interrupt := by
        simpa using hj 0 (by omega)
      rcases hx : o s.prov with r2 | msg | _
      · by_cases hs2 : r2.success = some true
        · simp only [settingsLoop, make_request_eq, oracleHandler, echo, hx,
            hs2, CallOutcome.toResult, if_true, reduceIte]
          refine ih _ m2 (by simpa using Nat.lt_of_succ_lt_succ hm) ?_ ?_
          · intro j hjj
            simp only [echo]
            have e : s.prov + 1 + j = s.prov + (j + 1) := by omega
            rw [e]
            exact hj (j + 1) (by omega)
          · simp only [echo]
            have e : s.prov + 1 + m2 = s.prov + (m2 + 1) := by omega
            rw [e]
            exact hint
        · simp only [settingsLoop, make_request_eq, oracleHandler, echo, hx,
            CallOutcome.toResult]
          rw [if_neg hs2]
          simp only [Exc.isException, if_true, reduceIte]
          refine ih _ m2 (by simpa using Nat.lt_of_succ_lt_succ hm) ?_ ?_
          · intro j hjj
            simp only [echo]
            have e : s.prov + 1 + j = s.prov + (j + 1) := by omega
            rw [e]
            exact hj (j + 1) (by omega)
          · simp only [echo]
            have e : s.prov + 1 + m2 = s.prov + (m2 + 1) := by omega
            rw [e]
            exact hint
      · simp only [settingsLoop, make_request_eq, oracleHandler, echo, hx,
          CallOutcome.toResult, Exc.isException, if_true, reduceIte]
        refine ih _ m2 (by simpa using Nat.lt_of_succ_lt_succ hm) ?_ ?_
        · intro j hjj
          simp only [echo]
          have e : s.prov + 1 + j = s.prov + (j + 1) := by omega
          rw [e]
          exact hj (j + 1) (by omega)
        · simp only [echo]
          have e : s.prov + 1 + m2 = s.prov + (m2 + 1) := by omega
          rw [e]
          exact hint
      · exact absurd hx h0

theorem add_security_rules_oracle_interrupt (o : Nat → CallOutcome)
    (cfg : Config) (s : St Nat) (m : Nat) (hm : m < 5)
    (hj : ∀ j, j < m + 1 → o (s.prov + j) ≠ CallOutcome.interrupt)
    (hint : o (s.prov + (m + 1)) = CallOutcome.interrupt) :
    (add_security_rules (oracleHandler o) cfg s).2 =
      some Exc.keyboardInterrupt := by
  have h0 : o s.prov ≠ CallOutcome.interrupt := by
    simpa using hj 0 (by omega)
  have hloop : ∀ rid, (addRulesLoop (oracleHandler o) cfg rid 1 SECURITY_RULES
      { prov := s.prov + 1,
        calls := s.calls ++
          [mkReq cfg (entrypointPath cfg.ZONE_ID) Method.GET none],
        output := s.output ++ ["🔥 Adding Cloudflare Security Rules...\n"],
        stdin := s.stdin }).2 = some Exc.keyboardInterrupt := by
    intro rid
    refine addRulesLoop_oracle_interrupt o cfg rid SECURITY_RULES 1 _ m
      (by simp [SECURITY_RULES]; omega) ?_ ?_
    · intro j hjj
      simp only []
      have e : s.prov + 1 + j = s.prov + (j + 1) := by omega
      rw [e]
      exact hj (j + 1) (by omega)
    · simp only []
      have e : s.prov + 1 + m = s.prov + (m + 1) := by omega
      rw [e]
      exact hint
  have hpair : ∀ rid, ∃ S2, addRulesLoop (oracleHandler o) cfg rid 1
      SECURITY_RULES
      { prov := s.prov + 1,
        calls := s.calls ++
          [mkReq cfg (entrypointPath cfg.ZONE_ID) Method.GET none],
        output := s.output ++ ["🔥 Adding Cloudflare Security Rules...\n"],
        stdin := s.stdin } = (S2, some Exc.keyboardInterrupt) := by
    intro rid
    rcases hL2 : addRulesLoop (oracleHandler o) cfg rid 1 SECURITY_RULES
        { prov := s.prov + 1,
          calls := s.calls ++
            [mkReq cfg (entrypointPath cfg.ZONE_ID) Method.GET none],
          output := s.output ++ ["🔥 Adding Cloudflare Security Rules...\n"],
          stdin := s.stdin } with ⟨S2, r2⟩
    have hr2 : r2 = some Exc.keyboardInterrupt := by
      have h := hloop rid
      rw [hL2] at h
      exact h
    exact ⟨S2, by rw [hr2]⟩
  rcases hx : o s.prov with r | msg | _
  · by_cases hs2 : r.success = some true
    · rcases hrr : r.result with _ | res
      · obtain ⟨S2, hL2⟩ := hpair none
        simp [add_security_rules, make_request_eq, oracleHandler, echo, hx,
          hs2, hrr, CallOutcome.toResult, hL2]
      · obtain ⟨S2, hL2⟩ := hpair res.id
        simp [add_security_rules, make_request_eq, oracleHandler, echo, hx,
          hs2, hrr, CallOutcome.toResult, hL2]
    · obtain ⟨S2, hL2⟩ := hpair none
      simp [add_security_rules, make_request_eq, oracleHandler, echo, hx,
        hs2, CallOutcome.toResult, hL2]
  · obtain ⟨S2, hL2⟩ := hpair none
    simp [add_security_rules, make_request_eq, oracleHandler, echo, hx,
      CallOutcome.toResult, hL2]
  · exact absurd hx h0

theorem configure_security_settings_oracle_interrupt (o : Nat → CallOutcome)
    (cfg : Config) (s : St Nat) (m : Nat) (hm : m < 5)
    (hj : ∀ j, j < m → o (s.prov + j) ≠ CallOutcome.interrupt)
    (hint : o (s.prov + m) = CallOutcome.interrupt) :
    (configure_security_settings (oracleHandler o) cfg s).2 =
      some Exc.keyboardInterrupt := by
  have hloop : (settingsLoop (oracleHandler o) cfg settingsTable
      { prov := s.prov, calls := s.calls,
        output := s.output ++ ["🔐 Configuring security settings...\n"],
        stdin := s.stdin }).2 = some Exc.keyboardInterrupt := by
    refine settingsLoop_oracle_interrupt o cfg settingsTable _ m
      (by simp [settingsTable]; omega) ?_ ?_
    · intro j hjj
      simp only []
      exact hj j hjj
    · simp only []
      exact hint
  rcases hL2 : settingsLoop (oracleHandler o) cfg settingsTable
      { prov := s.prov, calls := s.calls,
        output := s.output ++ ["🔐 Configuring security settings...\n"],
        stdin := s.stdin } with ⟨S2, r2⟩
  have hr2 : r2 = some Exc.keyboardInterrupt := by
    rw [hL2] at hloop
    exact hloop
  subst hr2
  simp [configure_security_settings, echo, hL2]

theorem setupRest_oracle_ret (o : Nat → CallOutcome) (cfg : Config)
    (args : List String) (hni : noInterrupt o) (s : St Nat) :
    (setupRest (oracleHandler o) cfg args s).2 = MainOutcome.ret := by
  have hni2 : ∀ k, o k ≠ CallOutcome.interrupt := hni
  by_cases hd : "--delete" ∈ args <;>
    simp [setupRest, hd, delete_all_rules_eq, oracleHandler, hni2,
      add_security_rules_oracle_eq o cfg hni,
      configure_security_settings_oracle_eq o cfg hni, foldl_echo_eq]

theorem setupRest_oracle_stdin (o : Nat → CallOutcome) (cfg : Config)
    (args : List String) (hni : noInterrupt o) (s : St Nat) :
    (setupRest (oracleHandler o) cfg args s).1.stdin = s.stdin := by
  have hni2 : ∀ k, o k ≠ CallOutcome.interrupt := hni
  by_cases hd : "--delete" ∈ args <;>
    simp [setupRest, hd, delete_all_rules_eq, oracleHandler, hni2,
      add_security_rules_oracle_eq o cfg hni,
      configure_security_settings_oracle_eq o cfg hni, foldl_echo_eq]

theorem setupRest_oracle_posts (o : Nat → CallOutcome) (cfg : Config)
    (args : List String) (hni : noInterrupt o) (s : St Nat) :
    rulePostBodies (setupRest (oracleHandler o) cfg args s).1.calls =
      rulePostBodies s.calls ++ SECURITY_RULES := by
  have hni2 : ∀ k, o k ≠ CallOutcome.interrupt := hni
  by_cases hd : "--delete" ∈ args <;>
    simp [setupRest, hd, delete_all_rules_eq, oracleHandler, hni2,
      add_security_rules_oracle_eq o cfg hni,
      configure_security_settings_oracle_eq o cfg hni, foldl_echo_eq,
      rulePostBodies_append, rulePostBodies_map_post,
      rulePostBodies_map_setting, rulePostBodies_listReq,
      rulePostBodies_deleteReq, rulePostBodies_cons_listReq,
      rulePostBodies_cons_deleteReq]

theorem setupRest_oracle_interrupt (o : Nat → CallOutcome) (cfg : Config)
    (args : List String) (hd : "--delete" ∉ args) (s : St Nat) (m : Nat)
    (hm1 : 1 ≤ m) (hm2 : m ≤ 10)
    (hj : ∀ j, j < m → o (s.prov + j) ≠ CallOutcome.interrupt)
    (hint : o (s.prov + m) = CallOutcome.interrupt) :
    (setupRest (oracleHandler o) cfg args s).2 =
      MainOutcome.exc Exc.keyboardInterrupt := by
  rcases hadd2 : add_security_rules (oracleHandler o) cfg s with ⟨S2, r2⟩
  by_cases hm5 : m ≤ 5
  · have hadd : r2 = some Exc.keyboardInterrupt := by
      have h := add_security_rules_oracle_interrupt o cfg s (m - 1)
        (by omega) (fun j hjm => hj j (by omega))
        (by have e : m - 1 + 1 = m := by omega
            rw [e]
            exact hint)
      rw [hadd2] at h
      exact h
    subst hadd
    simp [setupRest, hd, hadd2]
  · have haddeq := add_security_rules_oracle_eq_local o cfg s
      (fun j hj5 => hj j (by omega))
    rw [hadd2] at haddeq
    injection haddeq with hS2 hr2
    subst hr2
    have hprov : S2.prov = s.prov + 6 := by
      rw [hS2]
      simp [SECURITY_RULES]
    rcases hc2 : configure_security_settings (oracleHandler o) cfg S2
      with ⟨S3, r3⟩
    have hconf : r3 = some Exc.keyboardInterrupt := by
      have h := configure_security_settings_oracle_interrupt o cfg S2 (m - 6)
        (by omega)
        (fun j hjm => by
          rw [hprov]
          have e : s.prov + 6 + j = s.prov + (6 + j) := by omega
          rw [e]
          exact hj (6 + j) (by omega))
        (by
          rw [hprov]
          have e : s.prov + 6 + (m - 6) = s.prov + m := by omega
          rw [e]
          exact hint)
      rw [hc2] at h
      exact h
    subst hconf
    simp [setupRest, hd, hadd2, hc2]

theorem guardResult_of_exc_kb (p : St σ × MainOutcome)
    (hp : p.2 = MainOutcome.exc Exc.keyboardInterrupt) :
    guardResult p = (echo p.1 "\n\n❌ Cancelled by user.\n", 0) := by
  rcases p with ⟨s1, mo⟩
  cases mo with
  | ret => simp at hp
  | exit c => simp at hp
  | exc e =>
    simp at hp
    subst hp
    rfl

theorem main_usage_eq (o : Nat → CallOutcome) (cfg : Config)
    (args : List String) (hp : cfg.isPlaceholder = false)
    (hl : "--list" ∉ args) (hd : "--delete" ∉ args) (hs : "--setup" ∉ args)
    (s : St Nat) :
    main (oracleHandler o) cfg args s =
      ({ prov := s.prov, calls := s.calls,
         output := s.output ++ (bannerOut ++ usageLines),
         stdin := s.stdin }, .ret) := by
  simp [main, hp, hl, hd, hs, echo, bannerOut, foldl_echo_eq]

theorem main_list_eq (o : Nat → CallOutcome) (cfg : Config)
    (args : List String) (hni : noInterrupt o) (hp : cfg.isPlaceholder = false)
    (hl : "--list" ∈ args) (s : St Nat) :
    main (oracleHandler o) cfg args s =
      ({ prov := s.prov + 1, calls := s.calls ++ [listReq cfg],
         output := s.output ++ (bannerOut ++ listOutput (o s.prov)),
         stdin := s.stdin }, .ret) := by
  have hni2 : ∀ k, o k ≠ CallOutcome.interrupt := hni
  simp [main, hp, hl, list_existing_rules_eq, oracleHandler, hni2, echo,
    bannerOut]

theorem main_delete_yes_eq (o : Nat → CallOutcome) (cfg : Config)
    (args : List String) (hni : noInterrupt o) (hp : cfg.isPlaceholder = false)
    (hl : "--list" ∉ args) (hd : "--delete" ∈ args) (c : String)
    (hc : pyLower c = "yes") (rest : List StdinEvent) (s : St Nat)
    (hstdin : s.stdin = StdinEvent.line c :: rest) :
    main (oracleHandler o) cfg args s =
      ({ prov := s.prov + 2, calls := s.calls ++ [listReq cfg, deleteReq cfg],
         output := s.output ++ (bannerOut ++ listOutput (o s.prov) ++
           ["⚠️  Are you sure you want to delete ALL rules? (yes/no): "] ++
           deleteOutput (o (s.prov + 1))),
         stdin := rest }, .ret) := by
  have hni2 : ∀ k, o k ≠ CallOutcome.interrupt := hni
  simp [main, hp, hl, hd, list_existing_rules_eq, delete_all_rules_eq,
    oracleHandler, hni2, echo, bannerOut, inputLine, hstdin, hc]

theorem main_delete_no_eq (o : Nat → CallOutcome) (cfg : Config)
    (args : List String) (hni : noInterrupt o) (hp : cfg.isPlaceholder = false)
    (hl : "--list" ∉ args) (hd : "--delete" ∈ args) (c : String)
    (hc : pyLower c ≠ "yes") (rest : List StdinEvent) (s : St Nat)
    (hstdin : s.stdin = StdinEvent.line c :: rest) :
    main (oracleHandler o) cfg args s =
      ({ prov := s.prov + 1, calls := s.calls ++ [listReq cfg],
         output := s.output ++ (bannerOut ++ listOutput (o s.prov) ++
           ["⚠️  Are you sure you want to delete ALL rules? (yes/no): ",
            "Cancelled.\n"]),
         stdin := rest }, .ret) := by
  have hni2 : ∀ k, o k ≠ CallOutcome.interrupt := hni
  simp [main, hp, hl, hd, list_existing_rules_eq, oracleHandler, hni2, echo,
    bannerOut, inputLine, hstdin, hc]

theorem main_setup_cancel_eq (o : Nat → CallOutcome) (cfg : Config)
    (args : List String) (hni : noInterrupt o) (hp : cfg.isPlaceholder = false)
    (hl : "--list" ∉ args) (hd : "--delete" ∉ args) (hs : "--setup" ∈ args)
    (hf : "--force" ∉ args) (c : String) (hc : pyLower c ≠ "yes")
    (rest : List StdinEvent) (s : St Nat)
    (hstdin : s.stdin = StdinEvent.line c :: rest) :
    main (oracleHandler o) cfg args s =
      ({ prov := s.prov + 1, calls := s.calls ++ [listReq cfg],
         output := s.output ++ (bannerOut ++ listOutput (o s.prov) ++
           ["⚠️  WARNING: This will add 5 new security rules to your Cloudflare account.",
            "   If you already have rules, you may exceed the free plan limit (5 rules).\n",
            "Continue? (yes/no): ", "Cancelled.\n"]),
         stdin := rest }, .exit 0) := by
  have hni2 : ∀ k, o k ≠ CallOutcome.interrupt := hni
  simp [main, hp, hl, hd, hs, hf, list_existing_rules_eq, oracleHandler,
    hni2, echo, bannerOut, inputLine, hstdin, hc]

theorem main_setup_yes_eq (o : Nat → CallOutcome) (cfg : Config)
    (args : List String) (hni : noInterrupt o) (hp : cfg.isPlaceholder = false)
    (hl : "--list" ∉ args) (hd : "--delete" ∉ args) (hs : "--setup" ∈ args)
    (hf : "--force" ∉ args) (c : String) (hc : pyLower c = "yes")
    (rest : List StdinEvent) (s : St Nat)
    (hstdin : s.stdin = StdinEvent.line c :: rest) :
    main (oracleHandler o) cfg args s =
      setupRest (oracleHandler o) cfg args
        { prov := s.prov + 1, calls := s.calls ++ [listReq cfg],
          output := s.output ++ (bannerOut ++ listOutput (o s.prov) ++
            ["⚠️  WARNING: This will add 5 new security rules to your Cloudflare account.",
             "   If you already have rules, you may exceed the free plan limit (5 rules).\n",
             "Continue? (yes/no): "]),
          stdin := rest } := by
  have hni2 : ∀ k, o k ≠ CallOutcome.interrupt := hni
  simp [main, hp, hl, hd, hs, hf, list_existing_rules_eq, oracleHandler,
    hni2, echo, bannerOut, inputLine, hstdin, hc]

theorem main_setup_force_eq (o : Nat → CallOutcome) (cfg : Config)
    (args : List String) (hni : noInterrupt o) (hp : cfg.isPlaceholder = false)
    (hl : "--list" ∉ args) (hd : "--delete" ∉ args) (hs : "--setup" ∈ args)
    (hf : "--force" ∈ args) (s : St Nat) :
    main (oracleHandler o) cfg args s =
      setupRest (oracleHandler o) cfg args
        { prov := s.prov + 1, calls := s.calls ++ [listReq cfg],
          output := s.output ++ (bannerOut ++ listOutput (o s.prov) ++
            ["⚠️  WARNING: This will add 5 new security rules to your Cloudflare account.",
             "   If you already have rules, you may exceed the free plan limit (5 rules).\n"]),
          stdin := s.stdin } := by
  have hni2 : ∀ k, o k ≠ CallOutcome.interrupt := hni
  simp [main, hp, hl, hd, hs, hf, list_existing_rules_eq, oracleHandler,
    hni2, echo, bannerOut]

theorem main_setup_yes_eq2 (o : Nat → CallOutcome) (cfg : Config)
    (args : List String) (hp : cfg.isPlaceholder = false)
    (hl : "--list" ∉ args) (hd : "--delete" ∉ args) (hs : "--setup" ∈ args)
    (hf : "--force" ∉ args) (c : String) (hc : pyLower c = "yes")
    (rest : List StdinEvent) (s : St Nat)
    (hstdin : s.stdin = StdinEvent.line c :: rest)
    (hni0 : o s.prov ≠ CallOutcome.interrupt) :
    main (oracleHandler o) cfg args s =
      setupRest (oracleHandler o) cfg args
        { prov := s.prov + 1, calls := s.calls ++ [listReq cfg],
          output := s.output ++ (bannerOut ++ listOutput (o s.prov) ++
            ["⚠️  WARNING: This will add 5 new security rules to your Cloudflare account.",
             "   If you already have rules, you may exceed the free plan limit (5 rules).\n",
             "Continue? (yes/no): "]),
          stdin := rest } := by
  simp [main, hp, hl, hd, hs, hf, list_existing_rules_eq, oracleHandler,
    hni0, echo, bannerOut, inputLine, hstdin, hc]

theorem main_setup_force_eq2 (o : Nat → CallOutcome) (cfg : Config)
    (args : List String) (hp : cfg.isPlaceholder = false)
    (hl : "--list" ∉ args) (hd : "--delete" ∉ args) (hs : "--setup" ∈ args)
    (hf : "--force" ∈ args) (s : St Nat)
    (hni0 : o s.prov ≠ CallOutcome.interrupt) :
    main (oracleHandler o) cfg args s =
      setupRest (oracleHandler o) cfg args
        { prov := s.prov + 1, calls := s.calls ++ [listReq cfg],
          output := s.output ++ (bannerOut ++ listOutput (o s.prov) ++
            ["⚠️  WARNING: This will add 5 new security rules to your Cloudflare account.",
             "   If you already have rules, you may exceed the free plan limit (5 rules).\n"]),
          stdin := s.stdin } := by
  simp [main, hp, hl, hd, hs, hf, list_existing_rules_eq, oracleHandler,
    hni0, echo, bannerOut]

theorem main_delete_interrupt_eq (o : Nat → CallOutcome) (cfg : Config)
    (args : List String) (hni : noInterrupt o) (hp : cfg.isPlaceholder = false)
    (hl : "--list" ∉ args) (hd : "--delete" ∈ args)
    (rest : List StdinEvent) (s : St Nat)
    (hstdin : s.stdin = StdinEvent.interrupt :: rest) :
    main (oracleHandler o) cfg args s =
      ({ prov := s.prov + 1, calls := s.calls ++ [listReq cfg],
         output := s.output ++ (bannerOut ++ listOutput (o s.prov) ++
           ["⚠️  Are you sure you want to delete ALL rules? (yes/no): "]),
         stdin := rest }, .exc Exc.keyboardInterrupt) := by
  have hni2 : ∀ k, o k ≠ CallOutcome.interrupt := hni
  simp [main, hp, hl, hd, list_existing_rules_eq, oracleHandler, hni2, echo,
    bannerOut, inputLine, hstdin]

theorem main_setup_interrupt_eq (o : Nat → CallOutcome) (cfg : Config)
    (args : List String) (hni : noInterrupt o) (hp : cfg.isPlaceholder = false)
    (hl : "--list" ∉ args) (hd : "--delete" ∉ args) (hs : "--setup" ∈ args)
    (hf : "--force" ∉ args) (rest : List StdinEvent) (s : St Nat)
    (hstdin : s.stdin = StdinEvent.interrupt :: rest) :
    main (oracleHandler o) cfg args s =
      ({ prov := s.prov + 1, calls := s.calls ++ [listReq cfg],
         output := s.output ++ (bannerOut ++ listOutput (o s.prov) ++
           ["⚠️  WARNING: This will add 5 new security rules to your Cloudflare account.",
            "   If you already have rules, you may exceed the free plan limit (5 rules).\n",
            "Continue? (yes/no): "]),
         stdin := rest }, .exc Exc.keyboardInterrupt) := by
  have hni2 : ∀ k, o k ≠ CallOutcome.interrupt := hni
  simp [main, hp, hl, hd, hs, hf, list_existing_rules_eq, oracleHandler,
    hni2, echo, bannerOut, inputLine, hstdin]

theorem main_delete_eof_eq (o : Nat → CallOutcome) (cfg : Config)
    (args : List String) (hni : noInterrupt o) (hp : cfg.isPlaceholder = false)
    (hl : "--list" ∉ args) (hd : "--delete" ∈ args) (s : St Nat)
    (hstdin : s.stdin = []) :
    main (oracleHandler o) cfg args s =
      ({ prov := s.prov + 1, calls := s.calls ++ [listReq cfg],
         output := s.output ++ (bannerOut ++ listOutput (o s.prov) ++
           ["⚠️  Are you sure you want to delete ALL rules? (yes/no): "]),
         stdin := s.stdin }, .exc Exc.eofError) := by
  have hni2 : ∀ k, o k ≠ CallOutcome.interrupt := hni
  simp [main, hp, hl, hd, list_existing_rules_eq, oracleHandler, hni2, echo,
    bannerOut, inputLine, hstdin]

theorem main_setup_eof_eq (o : Nat → CallOutcome) (cfg : Config)
    (args : List String) (hni : noInterrupt o) (hp : cfg.isPlaceholder = false)
    (hl : "--list" ∉ args) (hd : "--delete" ∉ args) (hs : "--setup" ∈ args)
    (hf : "--force" ∉ args) (s : St Nat) (hstdin : s.stdin = []) :
    main (oracleHandler o) cfg args s =
      ({ prov := s.prov + 1, calls := s.calls ++ [listReq cfg],
         output := s.output ++ (bannerOut ++ listOutput (o s.prov) ++
           ["⚠️  WARNING: This will add 5 new security rules to your Cloudflare account.",
            "   If you already have rules, you may exceed the free plan limit (5 rules).\n",
            "Continue? (yes/no): "]),
         stdin := s.stdin }, .exc Exc.eofError) := by
  have hni2 : ∀ k, o k ≠ CallOutcome.interrupt := hni
  simp [main, hp, hl, hd, hs, hf, list_existing_rules_eq, oracleHandler,
    hni2, echo, bannerOut, inputLine, hstdin]

/-! Concrete fixtures for witnesses and counterexamples. -/

/-- A successful response with a resolvable ruleset id and no rules. -/
def okResponse : ApiResponse :=
  { success := some true, errors := [],
    result := some { id := some "abc123", rules := some [] } }

/-- A failed response carrying one provider error entry. -/
def failResponse : ApiResponse :=
  { success := some false, errors := ["rate limited"], result := none }

/-- Every call succeeds. -/
def allOk : Nat → CallOutcome := fun _ => .response okResponse

/-- Call number 3 fails, everything else succeeds. When
add_security_rules starts at call number 0, call 3 is the POST of rule 3
of 5 (call 0 is the resolution GET). -/
def failAt3 : Nat → CallOutcome := fun n =>
  if n = 3 then .response failResponse else .response okResponse

/-- Call number 1 is interrupted, everything else succeeds. In a setup
run, call 1 is the ruleset-id-resolution GET inside add_security_rules
(call 0 is the visibility listing GET). -/
def intAt1 : Nat → CallOutcome := fun n =>
  if n = 1 then .interrupt else .response okResponse

/-- Call number 0 is interrupted (the listing GET issued first by every
flag branch), everything else succeeds. -/
def intAt0 : Nat → CallOutcome := fun n =>
  if n = 0 then .interrupt else .response okResponse

/-- A configuration with both placeholders replaced. -/
def cfgTest : Config :=
  { CLOUDFLARE_API_TOKEN := "token-1", ZONE_ID := "zone-1" }

/-- A configuration still holding the placeholder token. -/
def cfgPlaceholder : Config :=
  { CLOUDFLARE_API_TOKEN := "YOUR_API_TOKEN_HERE", ZONE_ID := "zone-1" }

theorem allOk_noInterrupt : noInterrupt allOk := by
  intro k
  simp [allOk]

theorem failAt3_noInterrupt : noInterrupt failAt3 := by
  intro k
  simp only [failAt3]
  split <;> simp

/-! The claims. -/

/-- C2: for every invocation in which the API token or the zone id still
equals its placeholder value, the program issues no HTTP call at all and
terminates with exit status 1, regardless of which flags were supplied. -/
theorem claim_C2_placeholder_no_calls_exit_1 (h : Handler σ) (cfg : Config)
    (args : List String) (p : σ) (stdin : List StdinEvent)
    (hp : cfg.CLOUDFLARE_API_TOKEN = "YOUR_API_TOKEN_HERE" ∨
          cfg.ZONE_ID = "YOUR_ZONE_ID_HERE") :
    (run h cfg args (initSt p stdin)).1.calls = [] ∧
    (run h cfg args (initSt p stdin)).2 = 1 := by
  have hb : cfg.isPlaceholder = true := by
    rcases hp with hp | hp <;> simp [Config.isPlaceholder, hp]
  simp [run, main, guardResult, hb, echo, initSt]

/-- Witness for C2: the placeholder configuration with the setup flag
issues no call and exits 1. -/
theorem claim_C2_placeholder_no_calls_exit_1_witness :
    (run (oracleHandler allOk) cfgPlaceholder ["--setup"]
        (initSt 0 [])).1.calls = [] ∧
    (run (oracleHandler allOk) cfgPlaceholder ["--setup"]
        (initSt 0 [])).2 = 1 :=
  claim_C2_placeholder_no_calls_exit_1 (oracleHandler allOk) cfgPlaceholder
    ["--setup"] 0 [] (Or.inl rfl)

/-- C3: the request helper returns the decoded response exactly when the
success field of the decoded response is the boolean true, and otherwise
(false or absent) raises the API error carrying the provider error list,
so no decoded result is returned to the caller in the failure case. -/
theorem claim_C3_make_request_success_gate (h : Handler σ) (cfg : Config)
    (s : St σ) (endpoint : String) (method : Method) (data : Option Body)
    (r : ApiResponse)
    (hco : (h s.prov (mkReq cfg endpoint method data)).2 =
      CallOutcome.response r) :
    (make_request h cfg s endpoint method data).2 =
      (if r.success = some true then Except.ok r
       else Except.error (Exc.apiError r.errors)) := by
  simp [make_request_eq, hco, CallOutcome.toResult]

/-- Witness for C3 at a concrete response. -/
theorem claim_C3_make_request_success_gate_witness :
    (make_request (oracleHandler allOk) cfgTest (initSt 0 [])
        "/zones/zone-1/settings/tls_1_3" Method.GET none).2 =
      (if okResponse.success = some true then Except.ok okResponse
       else Except.error (Exc.apiError okResponse.errors)) :=
  claim_C3_make_request_success_gate (oracleHandler allOk) cfgTest
    (initSt 0 []) "/zones/zone-1/settings/tls_1_3" Method.GET none
    okResponse rfl

/-- C5: add-security-rules submits the five fixed rules one POST per rule
in exactly the order of the static rule table: the trace is the
resolution GET followed by exactly five POSTs, and the sequence of POSTed
rule bodies equals SECURITY_RULES. -/
theorem claim_C5_rules_posted_in_table_order (o : Nat → CallOutcome)
    (cfg : Config) (stdin : List StdinEvent) (hni : noInterrupt o) :
    rulePostBodies (add_security_rules (oracleHandler o) cfg
        (initSt 0 stdin)).1.calls = SECURITY_RULES ∧
    (add_security_rules (oracleHandler o) cfg
        (initSt 0 stdin)).1.calls.map Request.method =
      Method.GET :: SECURITY_RULES.map (fun _ => Method.POST) := by
  rw [add_security_rules_oracle_eq o cfg hni]
  constructor
  · simp [initSt, rulePostBodies_cons_listReq, rulePostBodies_map_post]
  · simp [initSt, listReq, rulePostReq, mkReq, Function.comp, SECURITY_RULES]

/-- Witness for C5 against the all-success environment. -/
theorem claim_C5_rules_posted_in_table_order_witness :
    rulePostBodies (add_security_rules (oracleHandler allOk) cfgTest
        (initSt 0 [])).1.calls = SECURITY_RULES ∧
    (add_security_rules (oracleHandler allOk) cfgTest
        (initSt 0 [])).1.calls.map Request.method =
      Method.GET :: SECURITY_RULES.map (fun _ => Method.POST) :=
  claim_C5_rules_posted_in_table_order allOk cfgTest [] allOk_noInterrupt

/-- C4: when the POST for rule 3 of 5 fails, the failure is caught and
logged with the provider error detail, the POSTs for rules 4 and 5 are
still attempted (all five rule bodies appear in order), the operation is
not fatal, and nothing is rolled back (the trace holds only GETs and
POSTs). -/
theorem claim_C4_partial_failure_independence (o : Nat → CallOutcome)
    (cfg : Config) (stdin : List StdinEvent) (e : Exc) (i : Nat)
    (hni : noInterrupt o) (hi1 : 1 ≤ i) (hi2 : i ≤ 5)
    (hfail : (o i).excOf = some e) :
    (add_security_rules (oracleHandler o) cfg (initSt 0 stdin)).2 = none ∧
    rulePostBodies (add_security_rules (oracleHandler o) cfg
        (initSt 0 stdin)).1.calls = SECURITY_RULES ∧
    ("   ❌ Failed: " ++ e.msg ++ "\n") ∈
      (add_security_rules (oracleHandler o) cfg (initSt 0 stdin)).1.output ∧
    ∀ r ∈ (add_security_rules (oracleHandler o) cfg (initSt 0 stdin)).1.calls,
      r.method = Method.GET ∨ r.method = Method.POST := by
  rw [add_security_rules_oracle_eq o cfg hni]
  refine ⟨rfl, ?_, ?_, ?_⟩
  · simp [initSt, rulePostBodies_cons_listReq, rulePostBodies_map_post]
  · interval_cases i <;>
      simp [initSt, SECURITY_RULES, loopOutput, attemptLine, hfail]
  · intro r hr
    simp [initSt, List.mem_cons, List.mem_map] at hr
    rcases hr with rfl | ⟨x, hx, rfl⟩
    · left; rfl
    · right; rfl

/-- Witness for C4: rule 3 fails with a provider error, all five rules
are still posted and the failure is logged. -/
theorem claim_C4_partial_failure_independence_witness :
    (add_security_rules (oracleHandler failAt3) cfgTest (initSt 0 [])).2 =
      none ∧
    rulePostBodies (add_security_rules (oracleHandler failAt3) cfgTest
        (initSt 0 [])).1.calls = SECURITY_RULES ∧
    ("   ❌ Failed: " ++ (Exc.apiError ["rate limited"]).msg ++ "\n") ∈
      (add_security_rules (oracleHandler failAt3) cfgTest
        (initSt 0 [])).1.output ∧
    ∀ r ∈ (add_security_rules (oracleHandler failAt3) cfgTest
        (initSt 0 [])).1.calls,
      r.method = Method.GET ∨ r.method = Method.POST :=
  claim_C4_partial_failure_independence failAt3 cfgTest []
    (Exc.apiError ["rate limited"]) 3 failAt3_noInterrupt (by decide)
    (by decide) (by decide)

/-- C9: add-security-rules first resolves the ruleset id via the
entrypoint GET; resolution failure (a failed GET, or an absent or empty
id) is not fatal and every rule is POSTed to the phase entrypoint path,
while a resolved non-empty id routes every rule POST to the
rulesets/id/rules path; all five rules are posted either way. -/
theorem claim_C9_resolution_fallback (o : Nat → CallOutcome) (cfg : Config)
    (stdin : List StdinEvent) (hni : noInterrupt o) :
    (add_security_rules (oracleHandler o) cfg (initSt 0 stdin)).2 = none ∧
    rulePostBodies (add_security_rules (oracleHandler o) cfg
        (initSt 0 stdin)).1.calls = SECURITY_RULES ∧
    ((resolveOutcome (o 0) = none ∨ resolveOutcome (o 0) = some "") →
      ∀ r ∈ (add_security_rules (oracleHandler o) cfg
          (initSt 0 stdin)).1.calls,
        r.method = Method.POST → r.endpoint = entrypointPath cfg.ZONE_ID) ∧
    (∀ rid, resolveOutcome (o 0) = some rid → rid ≠ "" →
      ∀ r ∈ (add_security_rules (oracleHandler o) cfg
          (initSt 0 stdin)).1.calls,
        r.method = Method.POST → r.endpoint = rulesPath cfg.ZONE_ID rid) := by
  rw [add_security_rules_oracle_eq o cfg hni]
  refine ⟨rfl, ?_, ?_, ?_⟩
  · simp [initSt, rulePostBodies_cons_listReq, rulePostBodies_map_post]
  · intro hcase r hr hpost
    simp [initSt, List.mem_cons, List.mem_map] at hr
    rcases hr with rfl | ⟨x, hx, rfl⟩
    · exact absurd hpost (by simp [listReq, mkReq])
    · rcases hcase with hcase | hcase <;>
        simp [rulePostReq, mkReq, addTarget, hcase]
  · intro rid hrid hne r hr hpost
    simp [initSt, List.mem_cons, List.mem_map] at hr
    rcases hr with rfl | ⟨x, hx, rfl⟩
    · exact absurd hpost (by simp [listReq, mkReq])
    · simp [rulePostReq, mkReq, addTarget, hrid, hne]

/-- Witness for C9 against the all-success environment (id resolves to a
non-empty string and every POST goes to the rulesets/id/rules path). -/
theorem claim_C9_resolution_fallback_witness :
    (add_security_rules (oracleHandler allOk) cfgTest (initSt 0 [])).2 =
      none ∧
    rulePostBodies (add_security_rules (oracleHandler allOk) cfgTest
        (initSt 0 [])).1.calls = SECURITY_RULES ∧
    ((resolveOutcome (allOk 0) = none ∨ resolveOutcome (allOk 0) = some "") →
      ∀ r ∈ (add_security_rules (oracleHandler allOk) cfgTest
          (initSt 0 [])).1.calls,
        r.method = Method.POST →
          r.endpoint = entrypointPath cfgTest.ZONE_ID) ∧
    (∀ rid, resolveOutcome (allOk 0) = some rid → rid ≠ "" →
      ∀ r ∈ (add_security_rules (oracleHandler allOk) cfgTest
          (initSt 0 [])).1.calls,
        r.method = Method.POST →
          r.endpoint = rulesPath cfgTest.ZONE_ID rid) :=
  claim_C9_resolution_fallback allOk cfgTest [] allOk_noInterrupt

/-- C7: in the provider model of the spec (the PUT with an empty rules
body replaces the ruleset, the listing GET returns the current ruleset),
a succeeding delete-all-rules followed immediately by
list-existing-rules reports zero existing rules. -/
theorem claim_C7_delete_then_list_empty (cfg : Config) (rs0 : List Rule)
    (stdin : List StdinEvent) :
    (delete_all_rules providerHandle cfg (initSt rs0 stdin)).2 = none ∧
    "✅ All rules deleted!\n" ∈
      (delete_all_rules providerHandle cfg (initSt rs0 stdin)).1.output ∧
    (list_existing_rules providerHandle cfg
        (delete_all_rules providerHandle cfg (initSt rs0 stdin)).1).2 =
      none ∧
    "No existing rules found.\n" ∈
      (list_existing_rules providerHandle cfg
        (delete_all_rules providerHandle cfg (initSt rs0 stdin)).1).1.output := by
  simp [delete_all_rules_eq, list_existing_rules_eq, providerHandle,
    deleteReq, listReq, mkReq, initSt, deleteOutput, listOutput,
    CallOutcome.toResult]

/-- C1: evaluation of the dispatcher at the failing input. With valid
credentials, arguments containing both setup and delete flags, an
all-success environment, and the confirmation answered yes, the run
issues exactly one GET and one PUT, POSTs no rule, never prints the
setup completion banner, prints the delete confirmation instead, and
exits 0: the elif chain of main tests the delete flag before the setup
flag, so the combined invocation runs the delete-only branch and
add-security-rules and configure-security-settings never execute,
contradicting the documented delete-then-add-then-configure sequence
(and the usage text of the script itself). -/
theorem claim_C1_setup_delete_runs_delete_only :
    (run (oracleHandler allOk) cfgTest ["--setup", "--delete"]
        (initSt 0 [StdinEvent.line "yes"])).1.calls.map Request.method =
      [Method.GET, Method.PUT] ∧
    rulePostBodies (run (oracleHandler allOk) cfgTest
        ["--setup", "--delete"]
        (initSt 0 [StdinEvent.line "yes"])).1.calls = [] ∧
    "✅  SETUP COMPLETE!" ∉
      (run (oracleHandler allOk) cfgTest ["--setup", "--delete"]
        (initSt 0 [StdinEvent.line "yes"])).1.output ∧
    "✅ All rules deleted!\n" ∈
      (run (oracleHandler allOk) cfgTest ["--setup", "--delete"]
        (initSt 0 [StdinEvent.line "yes"])).1.output ∧
    (run (oracleHandler allOk) cfgTest ["--setup", "--delete"]
        (initSt 0 [StdinEvent.line "yes"])).2 = 0 := by
  decide

/-- A completed setup tail always contains a mutating request (the five
rule POSTs are among its calls). -/
theorem setupRest_oracle_has_mutating (o : Nat → CallOutcome) (cfg : Config)
    (args : List String) (hni : noInterrupt o) (s : St Nat) :
    ∃ r ∈ (setupRest (oracleHandler o) cfg args s).1.calls,
      r.isMutating = true := by
  rcases hSR : SECURITY_RULES with _ | ⟨r1, rest⟩
  · exact absurd hSR (by decide)
  · refine exists_mutating_of_rulePostBodies _ r1 ?_
    rw [setupRest_oracle_posts o cfg args hni s, hSR]
    simp

/-- C6: a setup invocation without force whose confirmation input does
not lowercase to yes performs zero mutating HTTP calls (at most the
read-only listing GET occurs) and the process exits with status 0. -/
theorem claim_C6_setup_decline_no_mutation (o : Nat → CallOutcome)
    (cfg : Config) (args : List String) (c : String)
    (hni : noInterrupt o) (hp : cfg.isPlaceholder = false)
    (hsetup : "--setup" ∈ args) (hforce : "--force" ∉ args)
    (hc : pyLower c ≠ "yes") :
    (∀ r ∈ (run (oracleHandler o) cfg args
        (initSt 0 [StdinEvent.line c])).1.calls, r.isMutating = false) ∧
    (run (oracleHandler o) cfg args (initSt 0 [StdinEvent.line c])).2 = 0 := by
  by_cases hl : "--list" ∈ args
  · simp only [run]
    rw [main_list_eq o cfg args hni hp hl]
    simp [guardResult, initSt, listReq_not_mutating]
  · by_cases hd : "--delete" ∈ args
    · simp only [run]
      rw [main_delete_no_eq o cfg args hni hp hl hd c hc []
        (initSt 0 [StdinEvent.line c]) rfl]
      simp [guardResult, initSt, listReq_not_mutating]
    · simp only [run]
      rw [main_setup_cancel_eq o cfg args hni hp hl hd hsetup hforce c hc []
        (initSt 0 [StdinEvent.line c]) rfl]
      simp [guardResult, initSt, listReq_not_mutating]

/-- Witness for C6: a setup run declined with the answer no issues no
mutating call and exits 0. -/
theorem claim_C6_setup_decline_no_mutation_witness :
    (∀ r ∈ (run (oracleHandler allOk) cfgTest ["--setup"]
        (initSt 0 [StdinEvent.line "no"])).1.calls, r.isMutating = false) ∧
    (run (oracleHandler allOk) cfgTest ["--setup"]
        (initSt 0 [StdinEvent.line "no"])).2 = 0 :=
  claim_C6_setup_decline_no_mutation allOk cfgTest ["--setup"] "no"
    allOk_noInterrupt (by decide) (by decide) (by decide) (by decide)

/-- C10: at both confirmation prompts exactly the inputs whose lowercase
form equals yes are affirmative: in a prompting invocation a mutating
call occurs if and only if the lowercased input is yes, and every other
input (y, YES with a trailing space, the empty string, ...) prints the
cancellation message, leaves no mutating call, and exits 0. -/
theorem claim_C10_affirmative_iff_lower_yes (o : Nat → CallOutcome)
    (cfg : Config) (args : List String) (c : String)
    (hni : noInterrupt o) (hp : cfg.isPlaceholder = false)
    (hl : "--list" ∉ args)
    (hbranch : "--delete" ∈ args ∨ ("--setup" ∈ args ∧ "--force" ∉ args)) :
    ((∃ r ∈ (run (oracleHandler o) cfg args
        (initSt 0 [StdinEvent.line c])).1.calls, r.isMutating = true) ↔
      pyLower c = "yes") ∧
    (pyLower c ≠ "yes" →
      "Cancelled.\n" ∈ (run (oracleHandler o) cfg args
        (initSt 0 [StdinEvent.line c])).1.output ∧
      (run (oracleHandler o) cfg args
        (initSt 0 [StdinEvent.line c])).2 = 0) := by
  by_cases hc : pyLower c = "yes"
  · refine ⟨⟨fun _ => hc, fun _ => ?_⟩, fun hn => absurd hc hn⟩
    by_cases hd : "--delete" ∈ args
    · simp only [run]
      rw [main_delete_yes_eq o cfg args hni hp hl hd c hc []
        (initSt 0 [StdinEvent.line c]) rfl]
      simp only [guardResult]
      exact ⟨deleteReq cfg, by simp, rfl⟩
    · rcases hbranch with hd2 | ⟨hs, hf⟩
      · exact absurd hd2 hd
      · simp only [run]
        rw [main_setup_yes_eq o cfg args hni hp hl hd hs hf c hc []
          (initSt 0 [StdinEvent.line c]) rfl]
        rw [guardResult_of_ret _ (setupRest_oracle_ret o cfg args hni _)]
        exact setupRest_oracle_has_mutating o cfg args hni _
  · by_cases hd : "--delete" ∈ args
    · simp only [run]
      rw [main_delete_no_eq o cfg args hni hp hl hd c hc []
        (initSt 0 [StdinEvent.line c]) rfl]
      simp [guardResult, initSt, listReq_not_mutating, hc]
    · rcases hbranch with hd2 | ⟨hs, hf⟩
      · exact absurd hd2 hd
      · simp only [run]
        rw [main_setup_cancel_eq o cfg args hni hp hl hd hs hf c hc []
          (initSt 0 [StdinEvent.line c]) rfl]
        simp [guardResult, initSt, listReq_not_mutating, hc]

/-- Witness for C10: the delete prompt answered y (not yes) cancels with
no mutating call and exit 0. -/
theorem claim_C10_affirmative_iff_lower_yes_witness :
    ((∃ r ∈ (run (oracleHandler allOk) cfgTest ["--delete"]
        (initSt 0 [StdinEvent.line "y"])).1.calls, r.isMutating = true) ↔
      pyLower "y" = "yes") ∧
    (pyLower "y" ≠ "yes" →
      "Cancelled.\n" ∈ (run (oracleHandler allOk) cfgTest ["--delete"]
        (initSt 0 [StdinEvent.line "y"])).1.output ∧
      (run (oracleHandler allOk) cfgTest ["--delete"]
        (initSt 0 [StdinEvent.line "y"])).2 = 0) :=
  claim_C10_affirmative_iff_lower_yes allOk cfgTest ["--delete"] "y"
    allOk_noInterrupt (by decide) (by decide) (Or.inl (by decide))

/-- C8 counterexample to the claim as stated: a keyboard interrupt
delivered during the ruleset-id-resolution GET of add-security-rules
(call 1 of a setup --force run) is swallowed by the bare except of the
resolution: the run continues to completion and issues all 12 calls, the
top-level cancellation message is never printed, and the process exits 0
by normal completion, not through the top-level KeyboardInterrupt
handler. -/
theorem claim_C8_interrupt_swallowed_counterexample :
    intAt1 1 = CallOutcome.interrupt ∧
    (run (oracleHandler intAt1) cfgTest ["--setup", "--force"]
        (initSt 0 [])).1.calls.length = 12 ∧
    "\n\n❌ Cancelled by user.\n" ∉
      (run (oracleHandler intAt1) cfgTest ["--setup", "--force"]
        (initSt 0 [])).1.output ∧
    (run (oracleHandler intAt1) cfgTest ["--setup", "--force"]
        (initSt 0 [])).2 = 0 := by
  decide

/-- C8 (amended): the exit status is 0 on normal completion, on explicit
cancellation at a confirmation prompt, and on showing usage text; a
keyboard interrupt at a confirmation prompt or during any HTTP call
other than the ruleset-id-resolution GET inside add-security-rules (the
listing GET, the delete PUT, each rule POST, each settings PATCH) is
caught at the top level, prints the cancellation message, and exits 0;
an interrupt during that one resolution GET is swallowed by a bare
except and the run continues to normal completion (see the
counterexample); the status is 1 exactly on placeholder credentials or
on an uncaught top-level error (such as end of file at a required
prompt). -/
theorem claim_C8_exit_codes (o : Nat → CallOutcome) (cfg : Config)
    (args : List String) :
    (cfg.isPlaceholder = true →
      ∀ stdin, (run (oracleHandler o) cfg args (initSt 0 stdin)).2 = 1) ∧
    (cfg.isPlaceholder = false → noInterrupt o → ∀ c rest,
      (run (oracleHandler o) cfg args
        (initSt 0 (StdinEvent.line c :: rest))).2 = 0) ∧
    (cfg.isPlaceholder = false → noInterrupt o → "--list" ∉ args →
      ("--delete" ∈ args ∨ ("--setup" ∈ args ∧ "--force" ∉ args)) →
      (run (oracleHandler o) cfg args
        (initSt 0 [StdinEvent.interrupt])).2 = 0 ∧
      "\n\n❌ Cancelled by user.\n" ∈
        (run (oracleHandler o) cfg args
          (initSt 0 [StdinEvent.interrupt])).1.output) ∧
    (cfg.isPlaceholder = false → noInterrupt o → "--list" ∉ args →
      ("--delete" ∈ args ∨ ("--setup" ∈ args ∧ "--force" ∉ args)) →
      (run (oracleHandler o) cfg args (initSt 0 [])).2 = 1) ∧
    (cfg.isPlaceholder = false → o 0 = CallOutcome.interrupt →
      ("--list" ∈ args ∨ "--delete" ∈ args ∨ "--setup" ∈ args) →
      ∀ stdin,
        (run (oracleHandler o) cfg args (initSt 0 stdin)).2 = 0 ∧
        "\n\n❌ Cancelled by user.\n" ∈
          (run (oracleHandler o) cfg args (initSt 0 stdin)).1.output) ∧
    (cfg.isPlaceholder = false → "--list" ∉ args → "--delete" ∈ args →
      o 0 ≠ CallOutcome.interrupt → o 1 = CallOutcome.interrupt →
      ∀ c, pyLower c = "yes" →
        (run (oracleHandler o) cfg args
          (initSt 0 [StdinEvent.line c])).2 = 0 ∧
        "\n\n❌ Cancelled by user.\n" ∈
          (run (oracleHandler o) cfg args
            (initSt 0 [StdinEvent.line c])).1.output) ∧
    (cfg.isPlaceholder = false → "--list" ∉ args → "--delete" ∉ args →
      "--setup" ∈ args → ∀ k c,
      (∀ j, j < k → o j ≠ CallOutcome.interrupt) →
      o k = CallOutcome.interrupt → 2 ≤ k → k ≤ 11 →
      ("--force" ∈ args ∨ pyLower c = "yes") →
        (run (oracleHandler o) cfg args
          (initSt 0 [StdinEvent.line c])).2 = 0 ∧
        "\n\n❌ Cancelled by user.\n" ∈
          (run (oracleHandler o) cfg args
            (initSt 0 [StdinEvent.line c])).1.output) := by
  refine ⟨?_, ?_, ?_, ?_, ?_, ?_, ?_⟩
  · intro hb stdin
    simp [run, main, guardResult, hb, echo]
  · intro hp hni c rest
    by_cases hl : "--list" ∈ args
    · simp only [run]
      rw [main_list_eq o cfg args hni hp hl]
      rfl
    · by_cases hd : "--delete" ∈ args
      · by_cases hc : pyLower c = "yes"
        · simp only [run]
          rw [main_delete_yes_eq o cfg args hni hp hl hd c hc rest
            (initSt 0 (StdinEvent.line c :: rest)) rfl]
          rfl
        · simp only [run]
          rw [main_delete_no_eq o cfg args hni hp hl hd c hc rest
            (initSt 0 (StdinEvent.line c :: rest)) rfl]
          rfl
      · by_cases hs : "--setup" ∈ args
        · by_cases hf : "--force" ∈ args
          · simp only [run]
            rw [main_setup_force_eq o cfg args hni hp hl hd hs hf]
            rw [guardResult_of_ret _ (setupRest_oracle_ret o cfg args hni _)]
          · by_cases hc : pyLower c = "yes"
            · simp only [run]
              rw [main_setup_yes_eq o cfg args hni hp hl hd hs hf c hc rest
                (initSt 0 (StdinEvent.line c :: rest)) rfl]
              rw [guardResult_of_ret _
                (setupRest_oracle_ret o cfg args hni _)]
            · simp only [run]
              rw [main_setup_cancel_eq o cfg args hni hp hl hd hs hf c hc
                rest (initSt 0 (StdinEvent.line c :: rest)) rfl]
              rfl
        · simp only [run]
          rw [main_usage_eq o cfg args hp hl hd hs]
          rfl
  · intro hp hni hl hbr
    have hrw : main (oracleHandler o) cfg args
        (initSt 0 [StdinEvent.interrupt]) =
        ({ prov := 0 + 1, calls := [] ++ [listReq cfg],
           output := [] ++ (bannerOut ++ listOutput (o 0) ++
             (if "--delete" ∈ args then
               ["⚠️  Are you sure you want to delete ALL rules? (yes/no): "]
              else
               ["⚠️  WARNING: This will add 5 new security rules to your Cloudflare account.",
                "   If you already have rules, you may exceed the free plan limit (5 rules).\n",
                "Continue? (yes/no): "])),
           stdin := [] }, .exc Exc.keyboardInterrupt) := by
      by_cases hd : "--delete" ∈ args
      · rw [main_delete_interrupt_eq o cfg args hni hp hl hd []
          (initSt 0 [StdinEvent.interrupt]) rfl]
        simp [initSt, hd]
      · rcases hbr with hd2 | ⟨hs, hf⟩
        · exact absurd hd2 hd
        · rw [main_setup_interrupt_eq o cfg args hni hp hl hd hs hf []
            (initSt 0 [StdinEvent.interrupt]) rfl]
          simp [initSt, hd]
    constructor
    · simp only [run]
      rw [hrw]
      rfl
    · simp only [run]
      rw [hrw]
      simp [guardResult, echo]
  · intro hp hni hl hbr
    by_cases hd : "--delete" ∈ args
    · simp only [run]
      rw [main_delete_eof_eq o cfg args hni hp hl hd (initSt 0 []) rfl]
      rfl
    · rcases hbr with hd2 | ⟨hs, hf⟩
      · exact absurd hd2 hd
      · simp only [run]
        rw [main_setup_eof_eq o cfg args hni hp hl hd hs hf
          (initSt 0 []) rfl]
        rfl
  · intro hp h0 hbr stdin
    have hmexc : (main (oracleHandler o) cfg args (initSt 0 stdin)).2 =
        MainOutcome.exc Exc.keyboardInterrupt := by
      by_cases hl : "--list" ∈ args
      · simp [main, hp, hl, list_existing_rules_eq, oracleHandler, initSt,
          echo, bannerOut, h0]
      · by_cases hd : "--delete" ∈ args
        · simp [main, hp, hl, hd, list_existing_rules_eq, oracleHandler,
            initSt, echo, bannerOut, h0]
        · by_cases hs : "--setup" ∈ args
          · simp [main, hp, hl, hd, hs, list_existing_rules_eq,
              oracleHandler, initSt, echo, bannerOut, h0]
          · rcases hbr with h | h | h
            · exact absurd h hl
            · exact absurd h hd
            · exact absurd h hs
    constructor
    · simp only [run]
      rw [guardResult_of_exc_kb _ hmexc]
    · simp only [run]
      rw [guardResult_of_exc_kb _ hmexc]
      simp [echo]
  · intro hp hl hd h0ne h1 c hcy
    have hmexc : (main (oracleHandler o) cfg args
        (initSt 0 [StdinEvent.line c])).2 =
        MainOutcome.exc Exc.keyboardInterrupt := by
      simp [main, hp, hl, hd, list_existing_rules_eq, delete_all_rules_eq,
        oracleHandler, initSt, echo, bannerOut, inputLine, hcy, h0ne, h1]
    constructor
    · simp only [run]
      rw [guardResult_of_exc_kb _ hmexc]
    · simp only [run]
      rw [guardResult_of_exc_kb _ hmexc]
      simp [echo]
  · intro hp hl hd hs k c hfirst hk hk2 hk11 hforceyes
    have h0 : o (initSt 0 [StdinEvent.line c] : St Nat).prov ≠
        CallOutcome.interrupt := by
      simpa [initSt] using hfirst 0 (by omega)
    have hmexc : (main (oracleHandler o) cfg args
        (initSt 0 [StdinEvent.line c])).2 =
        MainOutcome.exc Exc.keyboardInterrupt := by
      by_cases hf : "--force" ∈ args
      · rw [main_setup_force_eq2 o cfg args hp hl hd hs hf
          (initSt 0 [StdinEvent.line c]) h0]
        refine setupRest_oracle_interrupt o cfg args hd _ (k - 1)
          (by omega) (by omega) ?_ ?_
        · intro j hjm
          simp only [initSt]
          have e : 0 + 1 + j = j + 1 := by omega
          rw [e]
          exact hfirst (j + 1) (by omega)
        · simp only [initSt]
          have e : 0 + 1 + (k - 1) = k := by omega
          rw [e]
          exact hk
      · have hcy : pyLower c = "yes" := by
          rcases hforceyes with hf2 | hcy
          · exact absurd hf2 hf
          · exact hcy
        rw [main_setup_yes_eq2 o cfg args hp hl hd hs hf c hcy []
          (initSt 0 [StdinEvent.line c]) rfl h0]
        refine setupRest_oracle_interrupt o cfg args hd _ (k - 1)
          (by omega) (by omega) ?_ ?_
        · intro j hjm
          simp only [initSt]
          have e : 0 + 1 + j = j + 1 := by omega
          rw [e]
          exact hfirst (j + 1) (by omega)
        · simp only [initSt]
          have e : 0 + 1 + (k - 1) = k := by omega
          rw [e]
          exact hk
    constructor
    · simp only [run]
      rw [guardResult_of_exc_kb _ hmexc]
    · simp only [run]
      rw [guardResult_of_exc_kb _ hmexc]
      simp [echo]

/-- Witness for C8: an interrupt delivered during the listing GET of a
delete run is caught at the top level: exit status 0 and the
cancellation message printed. -/
theorem claim_C8_exit_codes_witness :
    (run (oracleHandler intAt0) cfgTest ["--delete"] (initSt 0 [])).2 = 0 ∧
    "\n\n❌ Cancelled by user.\n" ∈
      (run (oracleHandler intAt0) cfgTest ["--delete"]
        (initSt 0 [])).1.output :=
  (claim_C8_exit_codes intAt0 cfgTest ["--delete"]).2.2.2.2.1 (by decide)
    (by decide) (Or.inr (Or.inl (by decide))) []

end CloudflareSetup
